import Mathlib

/-
Verification of the cases-generator token emitter
(Tools/cases_generator/generators_common.py).

The definitions below are a shallow embedding of the Python source.
Pure structure is kept as close to the source as Lean allows:
  * the token stream is a `List Token`; `next(tkn_iter)` becomes pattern
    matching on the head (raising `EmitErr.stopIteration` when exhausted);
    `peek` becomes `List.head?`;
  * the output writer `CWriter` is a `List OutItem` that functions thread
    and extend; `CWriter.start_line` and `emit_at` only affect formatting
    and source positions, which the model does not track, so `start_line`
    emits nothing and `emit_at txt tkn` emits `txt`;
  * Python in-place mutation of `Storage` becomes functional update;
  * `analysis_error` becomes `EmitErr.analysis`, a failing Python `assert`
    becomes `EmitErr.assertionFailed`, `StopIteration` becomes
    `EmitErr.stopIteration`;
  * the mutually recursive block/if emitters take a fuel parameter;
    exhausted fuel is `EmitErr.fuel`.

The collaborator modules `stack.py`, `lexer.py` and `analyzer.py` are not
part of the sources; the `Storage` operations they provide are modelled
from the natural-language specification (each such definition carries a
doc comment starting with "Modelled from the spec:").
-/

namespace CasesGen

/-- A lexical token: kind tag, text, and a stream-unique id standing in for
Python object identity (the source compares tokens by identity, e.g. for
escaping-call boundaries and output stores). -/
structure Token where
  kind : String
  text : String
  uid : Nat
deriving DecidableEq, Repr

/-- One item written to the output: either generator-produced text or an
echoed source token. -/
inductive OutItem where
  | str (s : String)
  | tok (t : Token)
deriving DecidableEq, Repr

abbrev Out := List OutItem

/-- Modelled from the spec: one symbolic operand slot (`StackSlot` in the
spec, `Local` in the missing stack.py): name, whether it currently holds a
valid value, and whether that value is materialized at its real stack
location. -/
structure StackItem where
  name : String
  defined : Bool
  in_memory : Bool
deriving DecidableEq, Repr

/-- Modelled from the spec: the only part of the symbolic stack object the
shown source consults is `storage.stack.peek_offset()`, a textual offset. -/
structure StackRep where
  peekOffsetText : String
deriving DecidableEq, Repr

/-- Modelled from the spec: `Storage` (stack.py, not in the sources): an
ordered sequence of input slots (in declaration order, deepest first), an
ordered sequence of output slots, and the `spilled` flag. -/
structure Storage where
  stack : StackRep
  inputs : List StackItem
  outputs : List StackItem
  spilled : Bool
deriving DecidableEq, Repr

/-- A named control-flow destination with its recorded spill expectation. -/
structure Label where
  spilled : Bool
deriving DecidableEq, Repr

abbrev Labels := List (String × Label)

/-- An escaping-call record: the slot-killing token (if any) and the token
marking the end of the call. -/
structure Escape where
  kills : Option Token
  endTok : Token
deriving DecidableEq, Repr

/-- The only property of the instruction metadata the emitter consults. -/
structure Properties where
  escaping_calls : List (Token × Escape)
deriving DecidableEq, Repr

/-- Resolved metadata for the fragment being emitted. -/
structure CodeSection where
  body : List Token
  output_stores : List Token
  properties : Properties
  instruction_size : Option Nat
deriving DecidableEq, Repr

/-- Instruction metadata; the emitter only uses the enclosing family name. -/
structure Instruction where
  family : Option String
deriving DecidableEq, Repr

/-- Failure modes of the emitter: `analysis` is `analysis_error(msg, tkn)`
from the source, the others model Python runtime exceptions and fuel. -/
inductive EmitErr where
  | analysis (msg : String) (tkn : Token)
  | stopIteration
  | assertionFailed
  | fuel
deriving DecidableEq, Repr

def analysis_error (msg : String) (tkn : Token) : EmitErr := .analysis msg tkn

/-- Source constant: voluminous debug tracing is disabled. -/
def PRINT_STACKS : Bool := false

/-- Source constant `NON_ESCAPING_DEALLOCS`. -/
def NON_ESCAPING_DEALLOCS : List String :=
  ["_PyFloat_ExactDealloc", "_PyLong_ExactDealloc", "_PyUnicode_ExactDealloc"]

/-- The keys of the `Emitter._replacers` dictionary. -/
def replacerNames : List String :=
  ["EXIT_IF", "DEOPT_IF", "ERROR_IF", "ERROR_NO_POP", "DECREF_INPUTS",
   "DEAD", "INPUTS_DEAD", "SYNC_SP", "SAVE_STACK", "RELOAD_STACK",
   "PyStackRef_CLOSE_SPECIALIZED", "PyStackRef_AsPyObjectSteal",
   "DISPATCH", "INSTRUCTION_SIZE", "stack_pointer"]

def containsStr : List String → String → Bool
  | [], _ => false
  | s :: rest, x => if s = x then true else containsStr rest x

def isPrefixChars : List Char → List Char → Bool
  | [], _ => true
  | _ :: _, [] => false
  | a :: as_, b :: bs => if a = b then isPrefixChars as_ bs else false

/-- `tkn.text.startswith("DISPATCH")` from the source, written as a
structurally recursive character comparison. -/
def startsWithDispatch (s : String) : Bool := isPrefixChars "DISPATCH".data s.data

def digitsToNat : Nat → List Char → Option Nat
  | acc, [] => some acc
  | acc, c :: rest =>
      if c.isDigit then digitsToNat (acc * 10 + (c.toNat - 48)) rest else none

/-- Python `int(text)` on the offset text, written as a structurally
recursive parse: an optional minus sign followed by at least one digit. -/
def parseIntText (s : String) : Option Int :=
  match s.data with
  | [] => none
  | '-' :: rest =>
      match rest with
      | [] => none
      | _ :: _ => (digitsToNat 0 rest).map fun n => -(n : Int)
  | c :: rest => (digitsToNat 0 (c :: rest)).map fun n => (n : Int)

def containsTok : List Token → Token → Bool
  | [], _ => false
  | t :: rest, x => if t = x then true else containsTok rest x

def lookupLabel : Labels → String → Option Label
  | [], _ => none
  | (n, l) :: rest, x => if n = x then some l else lookupLabel rest x

def lookupEscape : List (Token × Escape) → Token → Option Escape
  | [], _ => none
  | (t, e) :: rest, x => if t = x then some e else lookupEscape rest x

/-- `tkn in out_stores` branch of `_emit_block`: mark the first output slot
with this name defined and not in memory. -/
def setFirstOutput : List StackItem → String → List StackItem
  | [], _ => []
  | v :: rest, n =>
      if v.name = n then { v with defined := true, in_memory := false } :: rest
      else v :: setFirstOutput rest n

/-- Modelled from the spec: `Storage.copy` (stack.py, not in the sources):
a deep snapshot; with functional updates this is the identity. -/
def Storage.copy (s : Storage) : Storage := s

/-- Modelled from the spec: `Storage.clear_inputs` (stack.py, not in the
sources): "clears remaining live-input bookkeeping" — every input slot
stops being live. -/
def Storage.clear_inputs (s : Storage) (_reason : String) : Storage :=
  { s with inputs := s.inputs.map fun v => { v with defined := false } }

/-- Modelled from the spec: `Storage.flush` (stack.py, not in the sources):
writes all live slot values to their real stack memory locations. -/
def Storage.flush (s : Storage) (out : Out) : Storage × Out :=
  ({ s with
      inputs := s.inputs.map fun v => { v with in_memory := true },
      outputs := s.outputs.map fun v => { v with in_memory := true } },
   out ++ [OutItem.str "<flush-stack>"])

/-- Modelled from the spec: `Storage.save` (stack.py, not in the sources):
explicit spill of the full storage snapshot — all slots go to memory and
the storage becomes spilled. -/
def Storage.save (s : Storage) (out : Out) : Storage × Out :=
  ({ s with
      inputs := s.inputs.map fun v => { v with in_memory := true },
      outputs := s.outputs.map fun v => { v with in_memory := true },
      spilled := true },
   out ++ [OutItem.str "<save-stack>"])

/-- Modelled from the spec: `Storage.reload` (stack.py, not in the
sources): explicit un-spill of the full storage snapshot. -/
def Storage.reload (s : Storage) (out : Out) : Storage × Out :=
  ({ s with spilled := false }, out ++ [OutItem.str "<reload-stack>"])

/-- Modelled from the spec: `Storage.close_inputs` (stack.py, not in the
sources): emits ownership-release code for every still-live input slot, in
reverse declaration order, then marks them undefined. -/
def Storage.close_inputs (s : Storage) (out : Out) : Storage × Out :=
  ({ s with inputs := s.inputs.map fun v => { v with defined := false } },
   out ++ ((s.inputs.reverse.filter fun v => v.defined).map
     fun v => OutItem.str ("<close " ++ v.name ++ ">")))

/-- Modelled from the spec: `Storage.push_outputs` (stack.py, not in the
sources): all output slots are promoted into live input-slot status,
becoming the live set for whatever follows. -/
def Storage.push_outputs (s : Storage) : Storage :=
  { s with inputs := s.outputs, outputs := [] }

/-- Modelled from the spec: slot-by-slot reconciliation used by the merge:
the two snapshots must agree on which slots exist and which are live (a
slot live on one path only is irreconcilable); an `in_memory` disagreement
is reconciled to "in memory" by compensating spill code. Returns the
merged slots and the compensation text. -/
def mergeSlots : List StackItem → List StackItem → Except String (List StackItem × List String)
  | [], [] => .ok ([], [])
  | [], _ :: _ => .error "Cannot merge storages with different numbers of slots"
  | _ :: _, [] => .error "Cannot merge storages with different numbers of slots"
  | a :: as_, b :: bs =>
      if a.name ≠ b.name then
        .error ("Mismatched variables on stack: " ++ a.name ++ " and " ++ b.name)
      else if a.defined ≠ b.defined then
        .error ("Variable '" ++ a.name ++ "' is live on only one path")
      else
        match mergeSlots as_ bs with
        | .error msg => .error msg
        | .ok (rest, comp) =>
            if a.in_memory = b.in_memory then
              .ok ({ a with in_memory := a.in_memory } :: rest, comp)
            else
              .ok ({ a with in_memory := true } :: rest,
                   ("<spill " ++ a.name ++ ">") :: comp)

/-- Modelled from the spec: `Storage.merge` (stack.py, not in the sources):
reconciles every slot's `defined` and `in_memory` flags between the two
branch snapshots, emitting compensating code, and fails when the snapshots
describe irreconcilable live-slot sets or spill states. -/
def Storage.merge (s other : Storage) (out : Out) : Except String (Storage × Out) :=
  if s.spilled ≠ other.spilled then
    .error "Cannot merge spilled and unspilled storage"
  else
    match mergeSlots s.inputs other.inputs with
    | .error msg => .error msg
    | .ok (ins, compIn) =>
        match mergeSlots s.outputs other.outputs with
        | .error msg => .error msg
        | .ok (outs, compOut) =>
            .ok ({ s with inputs := ins, outputs := outs },
                 out ++ (compIn ++ compOut).map OutItem.str)

/-- Source `always_true`: whether a (peeked) token is the literal "true"
or "1". -/
def always_true (tkn : Option Token) : Bool :=
  match tkn with
  | none => false
  | some t => t.text = "true" || t.text = "1"

/-- Source `emit_to`: echo tokens until the first token of kind `endKind`
at paren depth zero; that token is consumed but not emitted. `last` is the
most recently consumed token, used for the end-of-file error position. -/
def emit_to (out : Out) (tkns : List Token) (endKind : String) (parens : Int)
    (last : Token) : Except EmitErr (Out × Token × List Token) :=
  match tkns with
  | [] =>
      .error (analysis_error ("Expecting " ++ endKind ++ ". Reached end of file") last)
  | tkn :: rest =>
      if tkn.kind = endKind ∧ parens = 0 then
        .ok (out, tkn, rest)
      else
        let parens := if tkn.kind = "LPAREN" then parens + 1 else parens
        let parens := if tkn.kind = "RPAREN" then parens - 1 else parens
        emit_to (out ++ [OutItem.tok tkn]) rest endKind parens tkn

/-- Debug-trace hook `Emitter._print_storage`; `PRINT_STACKS` is false in
the source, so it emits nothing. -/
def print_storage (_storage : Storage) (out : Out) : Out :=
  if PRINT_STACKS then out ++ [OutItem.str "<storage-comment>"] else out

/-- Source `Emitter.emit_save`. -/
def emit_save (storage : Storage) (out : Out) : Storage × Out :=
  let (storage, out) := storage.save out
  (storage, print_storage storage out)

/-- Source `Emitter.emit_reload`. -/
def emit_reload (storage : Storage) (out : Out) : Storage × Out :=
  let (storage, out) := storage.reload out
  (storage, print_storage storage out)

/-- The result of one replacement handler: (reachable?, remaining tokens,
storage, output), mirroring `ReplacementFunctionType` with the mutated
state made explicit. -/
abbrev HandlerResult := Except EmitErr (Bool × List Token × Storage × Out)

/-- Source `Emitter.dispatch`. -/
def dispatch (tkn : Token) (tkns : List Token) (_uop : CodeSection)
    (storage : Storage) (_inst : Option Instruction) (out : Out) : HandlerResult :=
  if storage.spilled then
    .error (analysis_error "stack_pointer needs reloading before dispatch" tkn)
  else
    .ok (false, tkns, storage, out ++ [OutItem.tok tkn])

/-- Source `Emitter.deopt_if` (also bound as `exit_if`). -/
def deopt_if (_tkn : Token) (tkns : List Token) (_uop : CodeSection)
    (storage : Storage) (inst : Option Instruction) (out : Out) : HandlerResult :=
  let out := out ++ [OutItem.str "if ("]
  match tkns with
  | [] => .error .stopIteration
  | lparen :: rest =>
      if lparen.kind = "LPAREN" then
        let first_tkn := rest.head?
        match emit_to out rest "RPAREN" 0 lparen with
        | .error e => .error e
        | .ok (out, _rparen, rest) =>
            let out := out ++ [OutItem.str ") \x7b\n"]
            match rest with
            | [] => .error .stopIteration
            | _semi :: rest =>
                match inst with
                | none => .error .assertionFailed
                | some i =>
                    match i.family with
                    | none => .error .assertionFailed
                    | some family_name =>
                        let out := out
                          ++ [OutItem.str ("UPDATE_MISS_STATS(" ++ family_name ++ ");\n"),
                              OutItem.str ("assert(_PyOpcode_Deopt[opcode] == (" ++ family_name ++ "));\n"),
                              OutItem.str ("JUMP_TO_PREDICTED(" ++ family_name ++ ");\n"),
                              OutItem.str "\x7d\n"]
                        .ok (!always_true first_tkn, rest, storage, out)
      else .error .assertionFailed

/-- Source `exit_if = deopt_if`. -/
def exit_if := deopt_if

/-- Source `Emitter.goto_error`: the jump text for an error label, adjusted
by the statically known stack offset; a negative offset flushes a copy of
the storage first (emission only — the copy is discarded). -/
def goto_error (offset : Int) (label : String) (storage : Storage) (out : Out) :
    Out × String :=
  if offset > 0 then
    (out, "JUMP_TO_LABEL(pop_" ++ toString offset ++ "_" ++ label ++ ");")
  else if offset < 0 then
    let (_, out) := (Storage.flush storage.copy) out
    (out, "JUMP_TO_LABEL(" ++ label ++ ");")
  else
    (out, "JUMP_TO_LABEL(" ++ label ++ ");")

/-- The `offset` computation of `Emitter.error_if`:
`-int(storage.stack.peek_offset())`, or `-1` when the text is not an
integer literal. -/
def errorOffset (storage : Storage) : Int :=
  match parseIntText storage.stack.peekOffsetText with
  | some n => -n
  | none => -1

/-- Shared tail of `Emitter.error_if` after the condition has been
handled: consume `label`, RPAREN and the semicolon, clear the inputs, and
emit the jump. -/
def error_if_tail (unconditional : Bool) (tkns : List Token)
    (storage : Storage) (out : Out) : HandlerResult :=
  match tkns with
  | [] => .error .stopIteration
  | labelTok :: rest =>
      match rest with
      | [] => .error .stopIteration
      | _rparen :: rest =>
          match rest with
          | [] => .error .stopIteration
          | _semi :: rest =>
              let label := labelTok.text
              let storage := storage.clear_inputs "at ERROR_IF"
              let offset := errorOffset storage
              let (out, jmp) := goto_error offset label storage out
              let out := out ++ [OutItem.str jmp, OutItem.str "\n"]
              let out := if !unconditional then out ++ [OutItem.str "\x7d\n"] else out
              .ok (!unconditional, rest, storage, out)

/-- Source `Emitter.error_if`. -/
def error_if (tkn : Token) (tkns : List Token) (_uop : CodeSection)
    (storage : Storage) (_inst : Option Instruction) (out : Out) : HandlerResult :=
  match tkns with
  | [] => .error .stopIteration
  | lparen :: rest =>
      if lparen.kind = "LPAREN" then
        let first_tkn := rest.head?
        let unconditional := always_true first_tkn
        if unconditional then
          match rest with
          | [] => .error .stopIteration
          | _first :: rest =>
              match rest with
              | [] => .error .stopIteration
              | comma :: rest =>
                  if comma.kind ≠ "COMMA" then
                    .error (analysis_error ("Expected comma, got '" ++ comma.text ++ "'") comma)
                  else
                    error_if_tail true rest storage out
        else
          let out := out ++ [OutItem.str "if ", OutItem.tok lparen]
          match emit_to out rest "COMMA" 0 tkn with
          | .error e => .error e
          | .ok (out, _comma, rest) =>
              let out := out ++ [OutItem.str ") \x7b\n"]
              error_if_tail false rest storage out
      else .error .assertionFailed

/-- Source `Emitter.error_no_pop`. -/
def error_no_pop (_tkn : Token) (tkns : List Token) (_uop : CodeSection)
    (storage : Storage) (_inst : Option Instruction) (out : Out) : HandlerResult :=
  match tkns with
  | _lparen :: _rparen :: _semi :: rest =>
      let (out, jmp) := goto_error 0 "error" storage out
      .ok (false, rest, storage, out ++ [OutItem.str jmp])
  | _ => .error .stopIteration

/-- Source `Emitter.decref_inputs`. The modelled `Storage.close_inputs` is
total, so the source's StackError-to-analysis-error wrapper has nothing to
catch. -/
def decref_inputs (_tkn : Token) (tkns : List Token) (_uop : CodeSection)
    (storage : Storage) (_inst : Option Instruction) (out : Out) : HandlerResult :=
  match tkns with
  | _a :: _b :: _c :: rest =>
      let (storage, out) := storage.close_inputs out
      .ok (true, rest, storage, out)
  | _ => .error .stopIteration

/-- Source `Emitter.kill_inputs`. -/
def kill_inputs (_tkn : Token) (tkns : List Token) (_uop : CodeSection)
    (storage : Storage) (_inst : Option Instruction) (out : Out) : HandlerResult :=
  match tkns with
  | _a :: _b :: _c :: rest =>
      .ok (true, rest,
           { storage with inputs := storage.inputs.map fun v => { v with defined := false } },
           out)
  | _ => .error .stopIteration

/-- The for/else search of `Emitter.kill`: mark the first input slot with
this name undefined; `none` when no input slot has the name. -/
def killUpdate : List StackItem → String → Option (List StackItem)
  | [], _ => none
  | v :: rest, n =>
      if v.name = n then some ({ v with defined := false } :: rest)
      else (killUpdate rest n).map (v :: ·)

/-- Source `Emitter.kill` (the `DEAD` directive). -/
def kill (_tkn : Token) (tkns : List Token) (_uop : CodeSection)
    (storage : Storage) (_inst : Option Instruction) (out : Out) : HandlerResult :=
  match tkns with
  | _lparen :: name_tkn :: _rparen :: _semi :: rest =>
      match killUpdate storage.inputs name_tkn.text with
      | some ins => .ok (true, rest, { storage with inputs := ins }, out)
      | none =>
          .error (analysis_error
            ("'" ++ name_tkn.text ++ "' is not a live input-only variable") name_tkn)
  | _ => .error .stopIteration

/-- The loop of `Emitter.stackref_kill`, over the reversed input list
(top of stack first); `live` is the name of the most recently seen live
slot above the target, `""` when there is none. -/
def kill_scan (nameTok : Token) (escapes : Bool) (live : String) :
    List StackItem → Except EmitErr (List StackItem)
  | [] => .ok []
  | v :: rest =>
      if v.name = nameTok.text then
        if live ≠ "" ∧ escapes then
          .error (analysis_error
            ("Cannot close '" ++ nameTok.text ++ "' when '" ++ live ++ "' is still live")
            nameTok)
        else
          .ok ({ v with defined := false } :: rest)
      else
        let live := if v.defined then v.name else live
        match kill_scan nameTok escapes live rest with
        | .error e => .error e
        | .ok rest => .ok (v :: rest)

/-- Source `Emitter.stackref_kill`. -/
def stackref_kill (nameTok : Token) (storage : Storage) (escapes : Bool) :
    Except EmitErr Storage :=
  match kill_scan nameTok escapes "" storage.inputs.reverse with
  | .error e => .error e
  | .ok revIns => .ok { storage with inputs := revIns.reverse }

/-- Source `Emitter.stackref_close_specialized`. -/
def stackref_close_specialized (tkn : Token) (tkns : List Token) (_uop : CodeSection)
    (storage : Storage) (_inst : Option Instruction) (out : Out) : HandlerResult :=
  let out := out ++ [OutItem.tok tkn]
  match tkns with
  | [] => .error .stopIteration
  | lparen :: rest =>
      if lparen.kind = "LPAREN" then
        let out := out ++ [OutItem.tok lparen]
        match rest with
        | [] => .error .stopIteration
        | name :: rest =>
            let out := out ++ [OutItem.tok name]
            match rest with
            | [] => .error .stopIteration
            | comma :: rest =>
                if comma.kind ≠ "COMMA" then
                  .error (analysis_error "Expected comma" comma)
                else
                  let out := out ++ [OutItem.tok comma]
                  match rest with
                  | [] => .error .stopIteration
                  | dealloc :: rest =>
                      if dealloc.kind ≠ "IDENTIFIER" then
                        .error (analysis_error "Expected identifier" dealloc)
                      else
                        let out := out ++ [OutItem.tok dealloc]
                        if name.kind = "IDENTIFIER" then
                          let escapes := !containsStr NON_ESCAPING_DEALLOCS dealloc.text
                          match stackref_kill name storage escapes with
                          | .error e => .error e
                          | .ok storage => .ok (true, rest, storage, out)
                        else
                          match emit_to out rest "RPAREN" 0 dealloc with
                          | .error e => .error e
                          | .ok (out, rparen, rest) =>
                              .ok (true, rest, storage, out ++ [OutItem.tok rparen])
      else .error .assertionFailed

/-- Source `Emitter.stackref_steal`. -/
def stackref_steal (tkn : Token) (tkns : List Token) (_uop : CodeSection)
    (storage : Storage) (_inst : Option Instruction) (out : Out) : HandlerResult :=
  let out := out ++ [OutItem.tok tkn]
  match tkns with
  | [] => .error .stopIteration
  | lparen :: rest =>
      if lparen.kind = "LPAREN" then
        let out := out ++ [OutItem.tok lparen]
        match rest with
        | [] => .error .stopIteration
        | name :: rest =>
            let out := out ++ [OutItem.tok name]
            if name.kind = "IDENTIFIER" then
              match stackref_kill name storage false with
              | .error e => .error e
              | .ok storage => .ok (true, rest, storage, out)
            else
              match emit_to out rest "RPAREN" 0 name with
              | .error e => .error e
              | .ok (out, rparen, rest) =>
                  .ok (true, rest, storage, out ++ [OutItem.tok rparen])
      else .error .assertionFailed

/-- Source `Emitter.sync_sp`. -/
def sync_sp (_tkn : Token) (tkns : List Token) (_uop : CodeSection)
    (storage : Storage) (_inst : Option Instruction) (out : Out) : HandlerResult :=
  match tkns with
  | _a :: _b :: _c :: rest =>
      let storage := storage.clear_inputs "when syncing stack"
      let (storage, out) := storage.flush out
      let out := print_storage storage out
      .ok (true, rest, storage, out)
  | _ => .error .stopIteration

/-- Source `Emitter.stack_pointer`. -/
def stack_pointer (tkn : Token) (tkns : List Token) (_uop : CodeSection)
    (storage : Storage) (_inst : Option Instruction) (out : Out) : HandlerResult :=
  if storage.spilled then
    .error (analysis_error "stack_pointer is invalid when stack is spilled to memory" tkn)
  else
    .ok (true, tkns, storage, out ++ [OutItem.tok tkn])

/-- Source `Emitter.save_stack`. -/
def save_stack (_tkn : Token) (tkns : List Token) (_uop : CodeSection)
    (storage : Storage) (_inst : Option Instruction) (out : Out) : HandlerResult :=
  match tkns with
  | _a :: _b :: _c :: rest =>
      let (storage, out) := emit_save storage out
      .ok (true, rest, storage, out)
  | _ => .error .stopIteration

/-- Source `Emitter.reload_stack`. -/
def reload_stack (_tkn : Token) (tkns : List Token) (_uop : CodeSection)
    (storage : Storage) (_inst : Option Instruction) (out : Out) : HandlerResult :=
  match tkns with
  | _a :: _b :: _c :: rest =>
      let (storage, out) := emit_reload storage out
      .ok (true, rest, storage, out)
  | _ => .error .stopIteration

/-- Source `Emitter.instruction_size`: replace the INSTRUCTION_SIZE macro
with the statically known size. -/
def instruction_size (tkn : Token) (tkns : List Token) (uop : CodeSection)
    (storage : Storage) (_inst : Option Instruction) (out : Out) : HandlerResult :=
  match uop.instruction_size with
  | none =>
      .error (analysis_error
        "The INSTRUCTION_SIZE macro requires uop.instruction_size to be set" tkn)
  | some n => .ok (true, tkns, storage, out ++ [OutItem.str (" " ++ toString n ++ " ")])

/-- Source `Emitter.goto_label`: the jump protocol for a named label. -/
def goto_label (labels : Labels) (goto : Token) (label : Token)
    (storage : Storage) (out : Out) : Except EmitErr (Storage × Out) :=
  match lookupLabel labels label.text with
  | none =>
      .error (analysis_error ("Label '" ++ label.text ++ "' does not exist") label)
  | some label_node =>
      if label_node.spilled then
        let (storage, out) :=
          if !storage.spilled then emit_save storage out else (storage, out)
        .ok (storage,
             out ++ [OutItem.str "JUMP_TO_LABEL(", OutItem.tok label, OutItem.str ")"])
      else if storage.spilled then
        .error (analysis_error
          "Cannot jump from spilled label without reloading the stack pointer" goto)
      else
        .ok (storage,
             out ++ [OutItem.str "JUMP_TO_LABEL(", OutItem.tok label, OutItem.str ")"])

/-- Dispatch on the `Emitter._replacers` table. -/
def callReplacer (name : String) (tkn : Token) (tkns : List Token)
    (uop : CodeSection) (storage : Storage) (inst : Option Instruction)
    (out : Out) : HandlerResult :=
  if name = "EXIT_IF" then exit_if tkn tkns uop storage inst out
  else if name = "DEOPT_IF" then deopt_if tkn tkns uop storage inst out
  else if name = "ERROR_IF" then error_if tkn tkns uop storage inst out
  else if name = "ERROR_NO_POP" then error_no_pop tkn tkns uop storage inst out
  else if name = "DECREF_INPUTS" then decref_inputs tkn tkns uop storage inst out
  else if name = "DEAD" then kill tkn tkns uop storage inst out
  else if name = "INPUTS_DEAD" then kill_inputs tkn tkns uop storage inst out
  else if name = "SYNC_SP" then sync_sp tkn tkns uop storage inst out
  else if name = "SAVE_STACK" then save_stack tkn tkns uop storage inst out
  else if name = "RELOAD_STACK" then reload_stack tkn tkns uop storage inst out
  else if name = "PyStackRef_CLOSE_SPECIALIZED" then
    stackref_close_specialized tkn tkns uop storage inst out
  else if name = "PyStackRef_AsPyObjectSteal" then
    stackref_steal tkn tkns uop storage inst out
  else if name = "DISPATCH" then dispatch tkn tkns uop storage inst out
  else if name = "INSTRUCTION_SIZE" then instruction_size tkn tkns uop storage inst out
  else if name = "stack_pointer" then stack_pointer tkn tkns uop storage inst out
  else .error .assertionFailed

/-- The reconciliation at the end of `Emitter._emit_if` when an `else`
branch was present (source lines 490-503): a branch that finished
unreachable is discarded; when both are reachable the else snapshot is
merged with the if snapshot, a merge failure being reported at the else
branch's closing brace. -/
def reconcileElse (reachable : Bool) (if_storage : Storage) (else_reachable : Bool)
    (rbrace2 : Token) (else_storage : Storage) (rest : List Token) (out : Out) :
    Except EmitErr (Bool × Token × Storage × List Token × Out) :=
  if !reachable then
    .ok (else_reachable, rbrace2, else_storage, rest, out)
  else if !else_reachable then
    .ok (true, rbrace2, if_storage, rest, out)
  else
    let out := if PRINT_STACKS then out ++ [OutItem.str "/* Merge */\n"] else out
    match Storage.merge else_storage if_storage out with
    | .error msg => .error (analysis_error msg rbrace2)
    | .ok (merged, out) => .ok (true, rbrace2, merged, rest, print_storage merged out)

/-- The reconciliation at the end of `Emitter._emit_if` when there is no
`else` (source lines 504-513): an unreachable then-branch is discarded and
the original storage reused; a reachable then-branch is merged into the
original, a merge failure being reported at the then branch's closing
brace. -/
def reconcileNoElse (reachable : Bool) (rbrace : Token) (if_storage storage : Storage)
    (rest : List Token) (out : Out) :
    Except EmitErr (Bool × Token × Storage × List Token × Out) :=
  if reachable then
    let out := if PRINT_STACKS then out ++ [OutItem.str "/* Merge */\n"] else out
    match Storage.merge if_storage storage out with
    | .error msg => .error (analysis_error msg rbrace)
    | .ok (merged, out) => .ok (true, rbrace, merged, rest, print_storage merged out)
  else
    .ok (true, rbrace, storage, rest, out)

mutual

/-- Source `Emitter._emit_if`: emit the parenthesized condition, the then
block against a copy of the storage, an optional `else`/`else if`, and
reconcile the branch snapshots. Returns (reachable?, closing brace,
storage, remaining tokens, output). -/
def emitIf (labels : Labels) (fuel : Nat) (tkns : List Token) (uop : CodeSection)
    (storage : Storage) (inst : Option Instruction) (out : Out) :
    Except EmitErr (Bool × Token × Storage × List Token × Out) :=
  match fuel with
  | 0 => .error .fuel
  | fuel + 1 =>
    match tkns with
    | [] => .error .stopIteration
    | tkn :: rest =>
      if tkn.kind = "LPAREN" then
        let out := out ++ [OutItem.tok tkn]
        match emit_to out rest "RPAREN" 0 tkn with
        | .error e => .error e
        | .ok (out, rparen, rest) =>
          let out := out ++ [OutItem.tok rparen]
          let if_storage := storage.copy
          match emitBlock labels fuel rest uop if_storage inst true out with
          | .error e => .error e
          | .ok (reachable, rbrace, if_storage, rest, out) =>
            match rest with
            | maybe_else :: rest2 =>
              if maybe_else.kind = "ELSE" then
                let out := print_storage storage out
                let out := out ++ [OutItem.tok rbrace, OutItem.tok maybe_else]
                let elseRes : Except EmitErr (Bool × Token × Storage × List Token × Out) :=
                  match rest2 with
                  | maybe_if :: rest3 =>
                    if maybe_if.kind = "IF" then
                      let out := out ++ [OutItem.str " \x7b\n", OutItem.tok maybe_if]
                      match emitIf labels fuel rest3 uop storage inst out with
                      | .error e => .error e
                      | .ok (r, rb, s, rst, o) =>
                          .ok (r, rb, s, rst, o ++ [OutItem.str "\x7d\n"])
                    else
                      emitBlock labels fuel rest2 uop storage inst true out
                  | [] => emitBlock labels fuel rest2 uop storage inst true out
                match elseRes with
                | .error e => .error e
                | .ok (else_reachable, rbrace2, else_storage, rest4, out) =>
                    reconcileElse reachable if_storage else_reachable rbrace2
                      else_storage rest4 out
              else
                reconcileNoElse reachable rbrace if_storage storage rest out
            | [] => reconcileNoElse reachable rbrace if_storage storage rest out
      else .error .assertionFailed

/-- Source `Emitter._emit_block`: expect an opening brace and run the token
loop. -/
def emitBlock (labels : Labels) (fuel : Nat) (tkns : List Token) (uop : CodeSection)
    (storage : Storage) (inst : Option Instruction) (emit_first_brace : Bool)
    (out : Out) : Except EmitErr (Bool × Token × Storage × List Token × Out) :=
  match fuel with
  | 0 => .error .fuel
  | fuel + 1 =>
    match tkns with
    | [] => .error .stopIteration
    | tkn :: rest =>
      if tkn.kind ≠ "LBRACE" then
        .error (analysis_error ("PEP 7: expected '\x7b', found: " ++ tkn.text) tkn)
      else
        let out := if emit_first_brace then out ++ [OutItem.tok tkn] else out
        let out := print_storage storage out
        blockLoop labels fuel rest uop storage inst 1 true none tkn out

/-- The `for tkn in tkn_iter` loop of `Emitter._emit_block`: `braces` is
the nesting depth, `reachable` the reachability state, `reload` the
pending escaping-call end token, `last` the most recently consumed token
(for the end-of-file error position). The per-line storage-comment trace
at the top of the source loop is guarded by `PRINT_STACKS` (false) and is
omitted here. -/
def blockLoop (labels : Labels) (fuel : Nat) (tkns : List Token) (uop : CodeSection)
    (storage : Storage) (inst : Option Instruction) (braces : Nat)
    (reachable : Bool) (reload : Option Token) (last : Token) (out : Out) :
    Except EmitErr (Bool × Token × Storage × List Token × Out) :=
  match fuel with
  | 0 => .error .fuel
  | fuel + 1 =>
    match tkns with
    | [] => .error (analysis_error "Expecting closing brace. Reached end of file" last)
    | tkn :: rest =>
      let escStep : Except EmitErr (Storage × Out × Option Token) :=
        match lookupEscape uop.properties.escaping_calls tkn with
        | some escape =>
            match escape.kills with
            | some killTok =>
                let (storage, out) :=
                  if some tkn = reload then emit_reload storage out else (storage, out)
                match stackref_kill killTok storage true with
                | .error e => .error e
                | .ok storage =>
                    let (storage, out) := emit_save storage out
                    .ok (storage, out, some escape.endTok)
            | none =>
                let (storage, out) :=
                  if some tkn ≠ reload then emit_save storage out else (storage, out)
                .ok (storage, out, some escape.endTok)
        | none =>
            if some tkn = reload then
              let (storage, out) := emit_reload storage out
              .ok (storage, out, reload)
            else
              .ok (storage, out, reload)
      match escStep with
      | .error e => .error e
      | .ok (storage, out, reload) =>
        if tkn.kind = "LBRACE" then
          blockLoop labels fuel rest uop storage inst (braces + 1) reachable reload
            tkn (out ++ [OutItem.tok tkn])
        else if tkn.kind = "RBRACE" then
          let out := print_storage storage out
          if braces - 1 = 0 then
            .ok (reachable, tkn, storage, rest, out)
          else
            blockLoop labels fuel rest uop storage inst (braces - 1) reachable reload
              tkn (out ++ [OutItem.tok tkn])
        else if tkn.kind = "GOTO" then
          match rest with
          | [] => .error .stopIteration
          | label_tkn :: rest =>
            match goto_label labels tkn label_tkn storage out with
            | .error e => .error e
            | .ok (storage, out) =>
                blockLoop labels fuel rest uop storage inst braces false reload tkn out
        else if tkn.kind = "IDENTIFIER" then
          if containsStr replacerNames tkn.text then
            match callReplacer tkn.text tkn rest uop storage inst out with
            | .error e => .error e
            | .ok (r, rest, storage, out) =>
                blockLoop labels fuel rest uop storage inst braces (reachable && r)
                  reload tkn out
          else
            let storage :=
              if containsTok uop.output_stores tkn then
                { storage with outputs := setFirstOutput storage.outputs tkn.text }
              else storage
            let out :=
              if startsWithDispatch tkn.text then print_storage storage out else out
            let reachable :=
              if startsWithDispatch tkn.text then false else reachable
            blockLoop labels fuel rest uop storage inst braces reachable reload
              tkn (out ++ [OutItem.tok tkn])
        else if tkn.kind = "IF" then
          let out := out ++ [OutItem.tok tkn]
          match emitIf labels fuel rest uop storage inst out with
          | .error e => .error e
          | .ok (if_reachable, rbrace, storage, rest, out) =>
              blockLoop labels fuel rest uop storage inst braces
                (reachable && if_reachable) reload tkn (out ++ [OutItem.tok rbrace])
        else
          blockLoop labels fuel rest uop storage inst braces reachable reload
            tkn (out ++ [OutItem.tok tkn])

end

/-- Source `Emitter.emit_tokens`: run the outer block (whose opening brace
is not re-emitted) and, if the end of the body is reachable, promote the
output slots into the live input set. The modelled `Storage.push_outputs`
is total, so the source's StackError-to-analysis-error wrapper has nothing
to catch. -/
def emit_tokens (labels : Labels) (fuel : Nat) (code : CodeSection)
    (storage : Storage) (inst : Option Instruction) :
    Except EmitErr (Storage × Out) :=
  match emitBlock labels fuel code.body code storage inst false [] with
  | .error e => .error e
  | .ok (reachable, _rbrace, storage, _rest, out) =>
      if reachable then
        let out := print_storage storage out
        let storage := storage.push_outputs
        .ok (storage, print_storage storage out)
      else
        .ok (storage, out)

instance {ε α : Type} [DecidableEq ε] [DecidableEq α] : DecidableEq (Except ε α) := by
  intro a b
  cases a <;> cases b
  case error.error e f =>
    exact if h : e = f then .isTrue (by rw [h]) else .isFalse (by simp [h])
  case error.ok e x => exact .isFalse (by simp)
  case ok.error x e => exact .isFalse (by simp)
  case ok.ok x y =>
    exact if h : x = y then .isTrue (by rw [h]) else .isFalse (by simp [h])

/-- A token constructor for the concrete test fixtures. -/
def tk (k t : String) (u : Nat) : Token := { kind := k, text := t, uid := u }

/-- Fixture: instruction metadata with no escaping calls. -/
def emptyProps : Properties := { escaping_calls := [] }

/-- Fixture: a live slot whose value is in memory. -/
def slotLive (n : String) : StackItem := { name := n, defined := true, in_memory := true }

/-- Fixture: a not-yet-assigned output slot. -/
def slotOut (n : String) : StackItem := { name := n, defined := false, in_memory := true }

/-- Fixture storage: inputs `a` (deepest) and `b` (top), output `c`, not
spilled, statically known stack offset 2. -/
def exStorage : Storage :=
  { stack := { peekOffsetText := "2" }, inputs := [slotLive "a", slotLive "b"],
    outputs := [slotOut "c"], spilled := false }

/-- Fixture: the same storage, spilled. -/
def exSpilled : Storage := { exStorage with spilled := true }

/-- Fixture: the output-store occurrence of `c`. -/
def cStoreTok : Token := tk "IDENTIFIER" "c" 10

/-- Fixture metadata: output store `c`, no escaping calls, no size. -/
def exUop : CodeSection :=
  { body := [], output_stores := [cStoreTok], properties := emptyProps,
    instruction_size := none }

/-- The value of the `live` accumulator of `Emitter.stackref_kill` after
scanning a list of slots (top of stack first): the name of the last live
slot seen, or the initial accumulator when none is live. -/
def scanLive : String → List StackItem → String
  | acc, [] => acc
  | acc, v :: rest => scanLive (if v.defined then v.name else acc) rest

/-- A token that the block emitter merely echoes: not a brace, not
`goto`/`if`, and, for identifiers, neither a directive name nor a
DISPATCH-prefixed name. -/
def plainToken (t : Token) : Bool :=
  !(t.kind = "GOTO") && !(t.kind = "IF") &&
  (!(t.kind = "IDENTIFIER") ||
    (!(containsStr replacerNames t.text) && !(startsWithDispatch t.text)))

/-- Fixture body for the spec scenario `\x7b DEOPT_IF(true); c = 1; \x7d`. -/
def deoptBody : List Token :=
  [tk "LBRACE" "\x7b" 20, tk "IDENTIFIER" "DEOPT_IF" 21, tk "LPAREN" "(" 22,
   tk "IDENTIFIER" "true" 23, tk "RPAREN" ")" 24, tk "SEMI" ";" 25,
   cStoreTok, tk "EQUALS" "=" 11, tk "NUMBER" "1" 12, tk "SEMI" ";" 13,
   tk "RBRACE" "\x7d" 14]

/-- Fixture metadata for the `DEOPT_IF(true)` scenario. -/
def deoptUop : CodeSection :=
  { body := deoptBody, output_stores := [cStoreTok], properties := emptyProps,
    instruction_size := none }

/-- Fixture body `\x7b c = 1; \x7d` with no directives at all. -/
def plainBody : List Token :=
  [tk "LBRACE" "\x7b" 20, cStoreTok, tk "EQUALS" "=" 11, tk "NUMBER" "1" 12,
   tk "SEMI" ";" 13, tk "RBRACE" "\x7d" 14]

/-- Fixture metadata for the plain body. -/
def plainUop : CodeSection :=
  { body := plainBody, output_stores := [cStoreTok], properties := emptyProps,
    instruction_size := none }

/-- The output emitted for the `DEOPT_IF(true)` scenario body. -/
def deoptOut : Out :=
  [OutItem.str "if (", OutItem.tok (tk "IDENTIFIER" "true" 23), OutItem.str ") \x7b\n",
   OutItem.str "UPDATE_MISS_STATS(FAM);\n",
   OutItem.str "assert(_PyOpcode_Deopt[opcode] == (FAM));\n",
   OutItem.str "JUMP_TO_PREDICTED(FAM);\n", OutItem.str "\x7d\n",
   OutItem.tok cStoreTok, OutItem.tok (tk "EQUALS" "=" 11),
   OutItem.tok (tk "NUMBER" "1" 12), OutItem.tok (tk "SEMI" ";" 13)]

/-- C5 counterexample: for `DEOPT_IF(true || x)` the condition is not the
literal constant "true" (it is a disjunction), so the claim says the code
following the directive remains reachable; the handler nevertheless
reports it unreachable (returns false), because the decision looks only at
the first condition token. -/
theorem c5_counterexample :
    deopt_if (tk "IDENTIFIER" "DEOPT_IF" 99)
      [tk "LPAREN" "(" 0, tk "IDENTIFIER" "true" 1, tk "OROR" "||" 2,
       tk "IDENTIFIER" "x" 3, tk "RPAREN" ")" 4, tk "SEMI" ";" 5]
      exUop exStorage (some { family := some "FAM" }) [] =
    .ok (false, [], exStorage,
         [OutItem.str "if (", OutItem.tok (tk "IDENTIFIER" "true" 1),
          OutItem.tok (tk "OROR" "||" 2), OutItem.tok (tk "IDENTIFIER" "x" 3),
          OutItem.str ") \x7b\n", OutItem.str "UPDATE_MISS_STATS(FAM);\n",
          OutItem.str "assert(_PyOpcode_Deopt[opcode] == (FAM));\n",
          OutItem.str "JUMP_TO_PREDICTED(FAM);\n", OutItem.str "\x7d\n"]) := by
  rfl

/-- C5 (amended): `DEOPT_IF`/`EXIT_IF` emit
`if (cond) \x7b UPDATE_MISS_STATS(family); assert(...); JUMP_TO_PREDICTED(family); \x7d`
using the instruction's family name, and the code following the directive
is reported unreachable if and only if the FIRST TOKEN of the condition is
the literal "true" or "1"; otherwise it remains reachable. -/
theorem c5_deopt_if_characterization (tkn lparen rp semi : Token)
    (condRest rest2 : List Token) (uop : CodeSection) (storage : Storage)
    (fam : String) (out out1 : Out)
    (hlp : lparen.kind = "LPAREN")
    (hemit : emit_to (out ++ [OutItem.str "if ("]) condRest "RPAREN" 0 lparen =
      .ok (out1, rp, semi :: rest2)) :
    deopt_if tkn (lparen :: condRest) uop storage (some { family := some fam }) out =
      .ok (!always_true condRest.head?, rest2, storage,
           out1 ++ [OutItem.str ") \x7b\n",
                    OutItem.str ("UPDATE_MISS_STATS(" ++ fam ++ ");\n"),
                    OutItem.str ("assert(_PyOpcode_Deopt[opcode] == (" ++ fam ++ "));\n"),
                    OutItem.str ("JUMP_TO_PREDICTED(" ++ fam ++ ");\n"),
                    OutItem.str "\x7d\n"]) := by
  simp only [deopt_if, hlp, if_pos, hemit]
  simp [List.append_assoc]

/-- C5 witness: `DEOPT_IF(x)` at a concrete input — the first condition
token is not "true"/"1", so the following code stays reachable. -/
theorem c5_deopt_if_witness :
    deopt_if (tk "IDENTIFIER" "DEOPT_IF" 99)
      [tk "LPAREN" "(" 0, tk "IDENTIFIER" "x" 1, tk "RPAREN" ")" 2, tk "SEMI" ";" 3]
      exUop exStorage (some { family := some "FAM" }) [] =
    .ok (true, [], exStorage,
         [OutItem.str "if (", OutItem.tok (tk "IDENTIFIER" "x" 1),
          OutItem.str ") \x7b\n", OutItem.str "UPDATE_MISS_STATS(FAM);\n",
          OutItem.str "assert(_PyOpcode_Deopt[opcode] == (FAM));\n",
          OutItem.str "JUMP_TO_PREDICTED(FAM);\n", OutItem.str "\x7d\n"]) := by
  have h := c5_deopt_if_characterization (tk "IDENTIFIER" "DEOPT_IF" 99)
    (tk "LPAREN" "(" 0) (tk "RPAREN" ")" 2) (tk "SEMI" ";" 3)
    [tk "IDENTIFIER" "x" 1, tk "RPAREN" ")" 2, tk "SEMI" ";" 3] []
    exUop exStorage "FAM" []
    [OutItem.str "if (", OutItem.tok (tk "IDENTIFIER" "x" 1)]
    (by rfl) (by rfl)
  simpa using h

theorem killUpdate_eq_none (n : String) :
    ∀ l : List StackItem, (∀ u ∈ l, u.name ≠ n) → killUpdate l n = none := by
  intro l
  induction l with
  | nil => intro _; rfl
  | cons v rest ih =>
      intro h
      have hv : v.name ≠ n := h v (List.mem_cons_self v rest)
      simp only [killUpdate, if_neg hv]
      rw [ih fun u hu => h u (List.mem_cons_of_mem v hu)]
      rfl

theorem killUpdate_found (n : String) :
    ∀ (pre : List StackItem) (v : StackItem) (post : List StackItem),
      (∀ u ∈ pre, u.name ≠ n) → v.name = n →
      killUpdate (pre ++ v :: post) n = some (pre ++ { v with defined := false } :: post) := by
  intro pre
  induction pre with
  | nil =>
      intro v post _ hv
      simp only [List.nil_append, killUpdate, if_pos hv]
  | cons u rest ih =>
      intro v post hpre hv
      have hu : u.name ≠ n := hpre u (List.mem_cons_self u rest)
      have h2 := ih v post (fun w hw => hpre w (List.mem_cons_of_mem u hw)) hv
      simp [killUpdate, if_neg hu, h2]

/-- C8 counterexample: `DEAD(a)` where the input slot `a` exists but is
already dead (not currently live) — the claim says this must fail, but the
handler succeeds (the source never checks the `defined` flag, only the
name). -/
theorem c8_counterexample :
    kill (tk "IDENTIFIER" "DEAD" 60)
      [tk "LPAREN" "(" 61, tk "IDENTIFIER" "a" 62, tk "RPAREN" ")" 63, tk "SEMI" ";" 64]
      exUop
      { stack := { peekOffsetText := "2" },
        inputs := [{ name := "a", defined := false, in_memory := true }],
        outputs := [slotOut "c"], spilled := false }
      none [] =
    .ok (true, [],
         { stack := { peekOffsetText := "2" },
           inputs := [{ name := "a", defined := false, in_memory := true }],
           outputs := [slotOut "c"], spilled := false },
         []) := by
  rfl

/-- C8 (amended): `DEAD(name)` marks the first input slot called `name`
undefined, emits no release code (the output is unchanged), and leaves the
following code reachable; it fails with the code-generation error at the
name token if and only if `name` is not the name of ANY input slot — the
slot's current liveness is not checked. -/
theorem c8_dead_characterization (tkn lparen name_tkn rparen semi : Token)
    (rest : List Token) (uop : CodeSection) (storage : Storage)
    (inst : Option Instruction) (out : Out) :
    ((∀ u ∈ storage.inputs, u.name ≠ name_tkn.text) →
      kill tkn (lparen :: name_tkn :: rparen :: semi :: rest) uop storage inst out =
        .error (analysis_error
          ("'" ++ name_tkn.text ++ "' is not a live input-only variable") name_tkn))
    ∧ (∀ pre v post, storage.inputs = pre ++ v :: post →
        (∀ u ∈ pre, u.name ≠ name_tkn.text) → v.name = name_tkn.text →
        kill tkn (lparen :: name_tkn :: rparen :: semi :: rest) uop storage inst out =
          .ok (true, rest,
               { storage with inputs := pre ++ { v with defined := false } :: post },
               out)) := by
  constructor
  · intro h
    simp only [kill, killUpdate_eq_none name_tkn.text storage.inputs h]
  · intro pre v post hsplit hpre hv
    simp only [kill, hsplit, killUpdate_found name_tkn.text pre v post hpre hv]

/-- C8 witness: killing the only live operand succeeds, marks it dead and
emits nothing; killing an absent name fails with the error at the name
token. -/
theorem c8_dead_witness :
    (kill (tk "IDENTIFIER" "DEAD" 60)
      [tk "LPAREN" "(" 61, tk "IDENTIFIER" "a" 62, tk "RPAREN" ")" 63, tk "SEMI" ";" 64]
      exUop
      { stack := { peekOffsetText := "2" }, inputs := [slotLive "a"],
        outputs := [slotOut "c"], spilled := false }
      none [] =
    .ok (true, [],
         { stack := { peekOffsetText := "2" },
           inputs := [{ name := "a", defined := false, in_memory := true }],
           outputs := [slotOut "c"], spilled := false },
         []))
    ∧ (kill (tk "IDENTIFIER" "DEAD" 60)
      [tk "LPAREN" "(" 61, tk "IDENTIFIER" "z" 62, tk "RPAREN" ")" 63, tk "SEMI" ";" 64]
      exUop exStorage none [] =
    .error (analysis_error "'z' is not a live input-only variable"
      (tk "IDENTIFIER" "z" 62))) := by
  constructor
  · have h := (c8_dead_characterization (tk "IDENTIFIER" "DEAD" 60)
      (tk "LPAREN" "(" 61) (tk "IDENTIFIER" "a" 62) (tk "RPAREN" ")" 63)
      (tk "SEMI" ";" 64) [] exUop
      { stack := { peekOffsetText := "2" }, inputs := [slotLive "a"],
        outputs := [slotOut "c"], spilled := false }
      none []).2 [] (slotLive "a") [] (by rfl) (by simp) (by rfl)
    simpa [slotLive] using h
  · have h := (c8_dead_characterization (tk "IDENTIFIER" "DEAD" 60)
      (tk "LPAREN" "(" 61) (tk "IDENTIFIER" "z" 62) (tk "RPAREN" ")" 63)
      (tk "SEMI" ";" 64) [] exUop exStorage none []).1 (by decide)
    simpa using h

theorem kill_scan_found (nameTok : Token) (escapes : Bool) :
    ∀ (pre : List StackItem) (acc : String) (v : StackItem) (post : List StackItem),
      (∀ u ∈ pre, u.name ≠ nameTok.text) → v.name = nameTok.text →
      kill_scan nameTok escapes acc (pre ++ v :: post) =
        (if scanLive acc pre ≠ "" ∧ escapes then
          .error (analysis_error
            ("Cannot close '" ++ nameTok.text ++ "' when '" ++ scanLive acc pre ++ "' is still live")
            nameTok)
        else .ok (pre ++ { v with defined := false } :: post)) := by
  intro pre
  induction pre with
  | nil =>
      intro acc v post _ hv
      simp only [List.nil_append, kill_scan, if_pos hv, scanLive]
  | cons u rest ih =>
      intro acc v post hpre hv
      have hu : u.name ≠ nameTok.text := hpre u (List.mem_cons_self u rest)
      have h2 := ih (if u.defined then u.name else acc) v post
        (fun w hw => hpre w (List.mem_cons_of_mem u hw)) hv
      simp only [List.cons_append, kill_scan, if_neg hu, scanLive, List.append_eq]
      rw [h2]
      by_cases hc : scanLive (if u.defined = true then u.name else acc) rest ≠ "" ∧ escapes = true
      · rw [if_pos hc, if_pos hc]
      · rw [if_neg hc, if_neg hc]

theorem kill_scan_no_escape (nameTok : Token) :
    ∀ (l : List StackItem) (acc : String),
      ∃ l', kill_scan nameTok false acc l = .ok l' := by
  intro l
  induction l with
  | nil => intro acc; exact ⟨[], rfl⟩
  | cons v rest ih =>
      intro acc
      by_cases hv : v.name = nameTok.text
      · exact ⟨{ v with defined := false } :: rest, by simp [kill_scan, if_pos hv]⟩
      · obtain ⟨l', hl'⟩ := ih (if v.defined then v.name else acc)
        exact ⟨v :: l', by simp [kill_scan, if_neg hv, hl']⟩

/-- C7 counterexample: inputs are `a` (beneath) then `b` (top of stack),
both live. Killing `b` with an escaping release while `a` is still live
BENEATH it succeeds — the claim says it must fail — while killing `a` with
`b` still live ABOVE it is what actually fails. -/
theorem c7_counterexample :
    (stackref_kill (tk "IDENTIFIER" "b" 50) exStorage true =
      .ok { stack := { peekOffsetText := "2" },
            inputs := [slotLive "a", { name := "b", defined := false, in_memory := true }],
            outputs := [slotOut "c"], spilled := false })
    ∧ (slotLive "a").defined = true
    ∧ (stackref_kill (tk "IDENTIFIER" "a" 51) exStorage true =
      .error (analysis_error "Cannot close 'a' when 'b' is still live"
        (tk "IDENTIFIER" "a" 51))) := by
  refine ⟨rfl, rfl, rfl⟩

/-- C7 (amended): when an ownership-consuming helper call form is given a
bare slot name, the named input slot is marked dead; if the kill is
escaping and another still-live input slot sits ABOVE the named one
(nearer the top of stack), emission fails with the ownership-ordering
error naming the closest such live slot; non-escaping kills (in
particular those through the recorded non-owning release functions) never
trigger this failure. -/
theorem c7_stackref_kill_characterization (nameTok : Token) (storage : Storage)
    (escapes : Bool) (pre : List StackItem) (v : StackItem) (post : List StackItem)
    (hrev : storage.inputs.reverse = pre ++ v :: post)
    (hpre : ∀ u ∈ pre, u.name ≠ nameTok.text)
    (hv : v.name = nameTok.text) :
    (stackref_kill nameTok storage escapes =
      (if scanLive "" pre ≠ "" ∧ escapes then
        .error (analysis_error
          ("Cannot close '" ++ nameTok.text ++ "' when '" ++ scanLive "" pre ++ "' is still live")
          nameTok)
      else .ok { storage with inputs := (pre ++ { v with defined := false } :: post).reverse }))
    ∧ (∀ s : Storage, ∃ s', stackref_kill nameTok s false = .ok s')
    ∧ (∀ tkn2 lparen comma dealloc : Token, ∀ rest : List Token,
        ∀ uop : CodeSection, ∀ inst : Option Instruction, ∀ out : Out,
        comma.kind = "COMMA" → dealloc.kind = "IDENTIFIER" →
        lparen.kind = "LPAREN" → nameTok.kind = "IDENTIFIER" →
        containsStr NON_ESCAPING_DEALLOCS dealloc.text = true →
        ∃ s', stackref_close_specialized tkn2
            (lparen :: nameTok :: comma :: dealloc :: rest) uop storage inst out =
          .ok (true, rest, s',
               out ++ [OutItem.tok tkn2, OutItem.tok lparen, OutItem.tok nameTok,
                       OutItem.tok comma, OutItem.tok dealloc])) := by
  refine ⟨?_, ?_, ?_⟩
  · have h := kill_scan_found nameTok escapes pre "" v post hpre hv
    simp only [stackref_kill, hrev, h]
    by_cases hc : scanLive "" pre ≠ "" ∧ escapes = true
    · simp [hc]
    · simp [hc]
  · intro s
    obtain ⟨l', hl'⟩ := kill_scan_no_escape nameTok s.inputs.reverse ""
    exact ⟨{ s with inputs := l'.reverse }, by simp [stackref_kill, hl']⟩
  · intro tkn2 lparen comma dealloc rest uop inst out hcomma hdealloc hlp hname hnon
    obtain ⟨l', hl'⟩ := kill_scan_no_escape nameTok storage.inputs.reverse ""
    refine ⟨{ storage with inputs := l'.reverse }, ?_⟩
    simp only [stackref_close_specialized, hlp, hcomma, hdealloc, hname, hnon,
      stackref_kill, Bool.not_true]
    rw [hl']
    simp [List.append_assoc]

/-- C7 witness: killing the bottom slot `a` with an escaping release while
`b` is live above it fails with the ownership-ordering error naming `b`. -/
theorem c7_stackref_kill_witness :
    stackref_kill (tk "IDENTIFIER" "a" 151) exStorage true =
      .error (analysis_error "Cannot close 'a' when 'b' is still live"
        (tk "IDENTIFIER" "a" 151)) := by
  have h := (c7_stackref_kill_characterization (tk "IDENTIFIER" "a" 151) exStorage true
    [slotLive "b"] (slotLive "a") [] (by rfl) (by decide) (by rfl)).1
  simpa [scanLive, slotLive] using h

/-- C9 counterexample: the identifier `DISPATCH_SAME_OPARG` (which begins
with the word DISPATCH) is processed while the storage is spilled; the
claim says this must fail with a code-generation error, but the block
emitter just echoes it and marks the following code unreachable. Only the
exact `DISPATCH` token goes through the handler that performs the spill
check. -/
theorem c9_counterexample :
    blockLoop [] 10 [tk "IDENTIFIER" "DISPATCH_SAME_OPARG" 30, tk "RBRACE" "\x7d" 31]
      exUop exSpilled none 1 true none (tk "IDENTIFIER" "DISPATCH_SAME_OPARG" 30) [] =
    .ok (false, tk "RBRACE" "\x7d" 31, exSpilled, [],
         [OutItem.tok (tk "IDENTIFIER" "DISPATCH_SAME_OPARG" 30)]) := by
  rfl

/-- C9 (amended): the exact `DISPATCH` identifier is handled by the
dispatch handler, which fails when the storage is spilled and otherwise
echoes the token and reports the following code unreachable; any OTHER
identifier beginning with DISPATCH also marks the following code
unreachable but does NOT perform the spilled-storage check. -/
theorem c9_dispatch_characterization (tkn : Token) (tkns : List Token)
    (uop : CodeSection) (storage : Storage) (inst : Option Instruction) (out : Out) :
    (storage.spilled = true →
      dispatch tkn tkns uop storage inst out =
        .error (analysis_error "stack_pointer needs reloading before dispatch" tkn))
    ∧ (storage.spilled = false →
      dispatch tkn tkns uop storage inst out =
        .ok (false, tkns, storage, out ++ [OutItem.tok tkn]))
    ∧ (∀ labels : Labels, ∀ fuel braces : Nat, ∀ reachable : Bool, ∀ last : Token,
        ∀ rest : List Token,
        uop.properties.escaping_calls = [] →
        tkn.kind = "IDENTIFIER" →
        containsStr replacerNames tkn.text = false →
        startsWithDispatch tkn.text = true →
        containsTok uop.output_stores tkn = false →
        blockLoop labels (fuel + 1) (tkn :: rest) uop storage inst braces reachable
            none last out =
          blockLoop labels fuel rest uop storage inst braces false none tkn
            (out ++ [OutItem.tok tkn])) := by
  refine ⟨?_, ?_, ?_⟩
  · intro h; simp [dispatch, h]
  · intro h; simp [dispatch, h]
  · intro labels fuel braces reachable last rest hesc hkind hrep hpref hos
    simp only [blockLoop, hesc, lookupEscape, hkind, hrep, hpref, hos]
    simp [print_storage, PRINT_STACKS]

/-- C9 witness: the exact `DISPATCH` token while the storage is spilled
fails with the code-generation error; while not spilled it is echoed and
the following code is unreachable. -/
theorem c9_dispatch_witness :
    (dispatch (tk "IDENTIFIER" "DISPATCH" 32) [] exUop exSpilled none [] =
      .error (analysis_error "stack_pointer needs reloading before dispatch"
        (tk "IDENTIFIER" "DISPATCH" 32)))
    ∧ (dispatch (tk "IDENTIFIER" "DISPATCH" 32) [] exUop exStorage none [] =
      .ok (false, [], exStorage, [OutItem.tok (tk "IDENTIFIER" "DISPATCH" 32)])) := by
  constructor
  · exact (c9_dispatch_characterization (tk "IDENTIFIER" "DISPATCH" 32) [] exUop
      exSpilled none []).1 (by rfl)
  · exact (c9_dispatch_characterization (tk "IDENTIFIER" "DISPATCH" 32) [] exUop
      exStorage none []).2.1 (by rfl)

/-- C6: the jump protocol for `goto label`: when the label expects a
spilled stack and the storage is not spilled, an explicit save is emitted
immediately before the `JUMP_TO_LABEL`; when the storage is spilled but
the label does not expect it, emission fails with the code-generation
error at the goto token; and in the block emitter the code following the
goto continues with reachability false. -/
theorem c6_goto_label_protocol (labels : Labels) (gotoTok labelTok : Token)
    (lbl : Label) (storage : Storage) (out : Out)
    (hlk : lookupLabel labels labelTok.text = some lbl) :
    (lbl.spilled = true → storage.spilled = false →
      goto_label labels gotoTok labelTok storage out =
        .ok ((Storage.save storage out).1,
             (Storage.save storage out).2 ++
               [OutItem.str "JUMP_TO_LABEL(", OutItem.tok labelTok, OutItem.str ")"]))
    ∧ (lbl.spilled = false → storage.spilled = true →
      goto_label labels gotoTok labelTok storage out =
        .error (analysis_error
          "Cannot jump from spilled label without reloading the stack pointer" gotoTok))
    ∧ (∀ fuel braces : Nat, ∀ uop : CodeSection, ∀ inst : Option Instruction,
        ∀ reachable : Bool, ∀ last : Token, ∀ rest : List Token,
        uop.properties.escaping_calls = [] → gotoTok.kind = "GOTO" →
        blockLoop labels (fuel + 1) (gotoTok :: labelTok :: rest) uop storage inst
            braces reachable none last out =
          (match goto_label labels gotoTok labelTok storage out with
           | .error e => .error e
           | .ok (s, o) =>
               blockLoop labels fuel rest uop s inst braces false none gotoTok o)) := by
  refine ⟨?_, ?_, ?_⟩
  · intro hl hs
    simp [goto_label, hlk, hl, hs, emit_save, Storage.save, print_storage, PRINT_STACKS]
  · intro hl hs
    simp [goto_label, hlk, hl, hs]
  · intro fuel braces uop inst reachable last rest hesc hkind
    simp only [blockLoop, hesc, lookupEscape, hkind]
    simp [print_storage, PRINT_STACKS]

/-- C6 witness: jumping to a label that requires a spilled stack from a
non-spilled context emits the save immediately before the jump; jumping
to a non-spilled label from a spilled context fails. -/
theorem c6_goto_label_witness :
    (goto_label [("spilled_lbl", { spilled := true }), ("plain_lbl", { spilled := false })]
      (tk "GOTO" "goto" 70) (tk "IDENTIFIER" "spilled_lbl" 71) exStorage [] =
      .ok ({ stack := { peekOffsetText := "2" },
             inputs := [slotLive "a", slotLive "b"],
             outputs := [slotOut "c"], spilled := true },
           [OutItem.str "<save-stack>", OutItem.str "JUMP_TO_LABEL(",
            OutItem.tok (tk "IDENTIFIER" "spilled_lbl" 71), OutItem.str ")"]))
    ∧ (goto_label [("spilled_lbl", { spilled := true }), ("plain_lbl", { spilled := false })]
      (tk "GOTO" "goto" 70) (tk "IDENTIFIER" "plain_lbl" 71) exSpilled [] =
      .error (analysis_error
        "Cannot jump from spilled label without reloading the stack pointer"
        (tk "GOTO" "goto" 70))) := by
  constructor
  · have h := (c6_goto_label_protocol
      [("spilled_lbl", { spilled := true }), ("plain_lbl", { spilled := false })]
      (tk "GOTO" "goto" 70) (tk "IDENTIFIER" "spilled_lbl" 71) { spilled := true }
      exStorage [] (by rfl)).1 (by rfl) (by rfl)
    simpa [Storage.save, exStorage, slotLive, slotOut] using h
  · exact (c6_goto_label_protocol
      [("spilled_lbl", { spilled := true }), ("plain_lbl", { spilled := false })]
      (tk "GOTO" "goto" 70) (tk "IDENTIFIER" "plain_lbl" 71) { spilled := false }
      exSpilled [] (by rfl)).2.1 (by rfl) (by rfl)

/-- C3 counterexample: `ERROR_IF(true || x, lbl)` — the condition is not
literally true (it is a disjunction), so the claim says the jump must be
wrapped in `if (cond)` and the following code stay reachable; instead the
handler, deciding on the first condition token alone, commits to the
unconditional path and fails with "Expected comma" at the `||` token. -/
theorem c3_counterexample :
    error_if (tk "IDENTIFIER" "ERROR_IF" 99)
      [tk "LPAREN" "(" 0, tk "IDENTIFIER" "true" 1, tk "OROR" "||" 2,
       tk "IDENTIFIER" "x" 3, tk "COMMA" "," 4, tk "IDENTIFIER" "lbl" 5,
       tk "RPAREN" ")" 6, tk "SEMI" ";" 7]
      exUop exStorage none [] =
    .error (analysis_error "Expected comma, got '||'" (tk "OROR" "||" 2)) := by
  rfl

/-- C3 (amended): `ERROR_IF(cond, label)` decides on the FIRST token of
the condition. When that token is "true" or "1" the handler takes the
unconditional path — the condition must then consist of that single token
followed by the comma, otherwise emission fails with "Expected comma" —
and the emitted code is the unadorned jump, adjusted for the unflushed
stack offset, with the following code unreachable. For any condition whose
first token is not "true"/"1" the condition is echoed inside `if (`, the
jump is wrapped, and the following code stays reachable. Both successful
paths clear the inputs and take the jump text from `goto_error`. -/
theorem c3_error_if_characterization (tkn lparen : Token) (rest : List Token)
    (uop : CodeSection) (storage : Storage) (inst : Option Instruction) (out : Out)
    (hlp : lparen.kind = "LPAREN") :
    (∀ first comma : Token, ∀ rest2 : List Token,
      rest = first :: comma :: rest2 →
      always_true (some first) = true → comma.kind = "COMMA" →
      error_if tkn (lparen :: rest) uop storage inst out =
        error_if_tail true rest2 storage out)
    ∧ (∀ first comma : Token, ∀ rest2 : List Token,
      rest = first :: comma :: rest2 →
      always_true (some first) = true → comma.kind ≠ "COMMA" →
      error_if tkn (lparen :: rest) uop storage inst out =
        .error (analysis_error ("Expected comma, got '" ++ comma.text ++ "'") comma))
    ∧ (∀ out1 : Out, ∀ commaTok : Token, ∀ rest2 : List Token,
      always_true rest.head? = false →
      emit_to (out ++ [OutItem.str "if ", OutItem.tok lparen]) rest "COMMA" 0 tkn =
        .ok (out1, commaTok, rest2) →
      error_if tkn (lparen :: rest) uop storage inst out =
        error_if_tail false rest2 storage (out1 ++ [OutItem.str ") \x7b\n"]))
    ∧ (∀ uncond : Bool, ∀ labelTok rparenTok semiTok : Token,
      ∀ rest3 : List Token, ∀ o : Out,
      error_if_tail uncond (labelTok :: rparenTok :: semiTok :: rest3) storage o =
        (let st := storage.clear_inputs "at ERROR_IF"
         let p := goto_error (errorOffset st) labelTok.text st o
         .ok (!uncond, rest3, st,
              if !uncond then
                p.1 ++ [OutItem.str p.2, OutItem.str "\n"] ++ [OutItem.str "\x7d\n"]
              else p.1 ++ [OutItem.str p.2, OutItem.str "\n"]))) := by
  refine ⟨?_, ?_, ?_, ?_⟩
  · intro first comma rest2 hr hfirst hcomma
    subst hr
    simp [error_if, hlp, hfirst, hcomma]
  · intro first comma rest2 hr hfirst hcomma
    subst hr
    simp [error_if, hlp, hfirst, hcomma]
  · intro out1 commaTok rest2 hfirst hemit
    simp [error_if, hlp, hfirst, hemit]
  · intro uncond labelTok rparenTok semiTok rest3 o
    cases uncond <;> simp [error_if_tail]

/-- C3 witness: the conditional form `ERROR_IF(x, lbl)` — the jump is
wrapped in `if (x) ...`, the following code stays reachable, the inputs
are cleared, and the jump is preceded by the flush implied by the negative
stack offset. -/
theorem c3_error_if_witness :
    error_if (tk "IDENTIFIER" "ERROR_IF" 99)
      [tk "LPAREN" "(" 0, tk "IDENTIFIER" "x" 1, tk "COMMA" "," 2,
       tk "IDENTIFIER" "lbl" 3, tk "RPAREN" ")" 4, tk "SEMI" ";" 5]
      exUop exStorage none [] =
    .ok (true, [],
         { stack := { peekOffsetText := "2" },
           inputs := [{ name := "a", defined := false, in_memory := true },
                      { name := "b", defined := false, in_memory := true }],
           outputs := [slotOut "c"], spilled := false },
         [OutItem.str "if ", OutItem.tok (tk "LPAREN" "(" 0),
          OutItem.tok (tk "IDENTIFIER" "x" 1), OutItem.str ") \x7b\n",
          OutItem.str "<flush-stack>", OutItem.str "JUMP_TO_LABEL(lbl);",
          OutItem.str "\n", OutItem.str "\x7d\n"]) := by
  have h := (c3_error_if_characterization (tk "IDENTIFIER" "ERROR_IF" 99)
    (tk "LPAREN" "(" 0)
    [tk "IDENTIFIER" "x" 1, tk "COMMA" "," 2, tk "IDENTIFIER" "lbl" 3,
     tk "RPAREN" ")" 4, tk "SEMI" ";" 5]
    exUop exStorage none [] (by rfl)).2.2.1
    [OutItem.str "if ", OutItem.tok (tk "LPAREN" "(" 0),
     OutItem.tok (tk "IDENTIFIER" "x" 1)]
    (tk "COMMA" "," 2)
    [tk "IDENTIFIER" "lbl" 3, tk "RPAREN" ")" 4, tk "SEMI" ";" 5]
    (by rfl) (by rfl)
  exact h.trans (by rfl)

theorem error_if_tail_clears (uncond : Bool) (tkns rest : List Token)
    (storage st : Storage) (o o2 : Out) (r : Bool)
    (h : error_if_tail uncond tkns storage o = .ok (r, rest, st, o2)) :
    st = storage.clear_inputs "at ERROR_IF" := by
  cases tkns with
  | nil => simp [error_if_tail] at h
  | cons a t1 =>
    cases t1 with
    | nil => simp [error_if_tail] at h
    | cons b t2 =>
      cases t2 with
      | nil => simp [error_if_tail] at h
      | cons c rest3 =>
        simp only [error_if_tail, Except.ok.injEq, Prod.mk.injEq] at h
        exact h.2.2.1.symm

theorem error_if_clears (tkn : Token) (tkns rest : List Token) (uop : CodeSection)
    (storage st : Storage) (inst : Option Instruction) (out o2 : Out) (r : Bool)
    (h : error_if tkn tkns uop storage inst out = .ok (r, rest, st, o2)) :
    st = storage.clear_inputs "at ERROR_IF" := by
  cases tkns with
  | nil => simp [error_if] at h
  | cons lparen rest1 =>
    by_cases hlp : lparen.kind = "LPAREN"
    · cases rest1 with
      | nil => simp [error_if, hlp, always_true, emit_to] at h
      | cons first t2 =>
        by_cases hu : always_true (some first) = true
        · cases t2 with
          | nil => simp [error_if, hlp, hu] at h
          | cons comma rest2 =>
            by_cases hcomma : comma.kind = "COMMA"
            · have h2 : error_if_tail true rest2 storage out = .ok (r, rest, st, o2) := by
                simpa [error_if, hlp, hu, hcomma] using h
              exact error_if_tail_clears true rest2 rest storage st out o2 r h2
            · simp [error_if, hlp, hu, hcomma] at h
        · rw [Bool.not_eq_true] at hu
          cases hemit : emit_to (out ++ [OutItem.str "if ", OutItem.tok lparen])
              (first :: t2) "COMMA" 0 tkn with
          | error e => simp [error_if, hlp, hu, hemit] at h
          | ok res =>
            obtain ⟨out1, commaTok, rest2⟩ := res
            have h2 : error_if_tail false rest2 storage
                (out1 ++ [OutItem.str ") \x7b\n"]) = .ok (r, rest, st, o2) := by
              simpa [error_if, hlp, hu, hemit] using h
            exact error_if_tail_clears false rest2 rest storage st
              (out1 ++ [OutItem.str ") \x7b\n"]) o2 r h2
    · simp [error_if, hlp] at h

/-- C10: every successful `ERROR_IF` — in particular the conditional form
whose condition is not literally true — returns the storage with every
input slot cleared, so on the fall-through path no input slot remains
live and a subsequent `DECREF_INPUTS` emits no release code for them. -/
theorem c10_error_if_decref_inputs (tkn : Token) (tkns rest : List Token)
    (uop : CodeSection) (storage st : Storage) (inst : Option Instruction)
    (out o2 : Out) (r : Bool)
    (hrun : error_if tkn tkns uop storage inst out = .ok (r, rest, st, o2)) :
    (∀ v ∈ st.inputs, v.defined = false)
    ∧ (∀ tkn2 a b c : Token, ∀ rest2 : List Token, ∀ uop2 : CodeSection,
        ∀ inst2 : Option Instruction, ∀ out3 : Out,
        decref_inputs tkn2 (a :: b :: c :: rest2) uop2 st inst2 out3 =
          .ok (true, rest2,
               { st with inputs := st.inputs.map fun v => { v with defined := false } },
               out3)) := by
  have hst := error_if_clears tkn tkns rest uop storage st inst out o2 r hrun
  have hdead : ∀ v ∈ st.inputs, v.defined = false := by
    intro v hv
    rw [hst] at hv
    simp only [Storage.clear_inputs, List.mem_map] at hv
    obtain ⟨u, _, rfl⟩ := hv
    rfl
  refine ⟨hdead, ?_⟩
  intro tkn2 a b c rest2 uop2 inst2 out3
  have hnil : (st.inputs.reverse.filter fun v => v.defined) = [] := by
    rw [List.filter_eq_nil_iff]
    intro v hv
    rw [List.mem_reverse] at hv
    simp [hdead v hv]
  simp [decref_inputs, Storage.close_inputs, hnil]

/-- C10 witness: after the concrete conditional `ERROR_IF(x, lbl)` both
inputs are dead and `DECREF_INPUTS()` emits nothing. -/
theorem c10_witness :
    decref_inputs (tk "IDENTIFIER" "DECREF_INPUTS" 80)
      [tk "LPAREN" "(" 81, tk "RPAREN" ")" 82, tk "SEMI" ";" 83]
      exUop
      { stack := { peekOffsetText := "2" },
        inputs := [{ name := "a", defined := false, in_memory := true },
                   { name := "b", defined := false, in_memory := true }],
        outputs := [slotOut "c"], spilled := false }
      none [OutItem.str "<before>"] =
    .ok (true, [],
         { stack := { peekOffsetText := "2" },
           inputs := [{ name := "a", defined := false, in_memory := true },
                      { name := "b", defined := false, in_memory := true }],
           outputs := [slotOut "c"], spilled := false },
         [OutItem.str "<before>"]) := by
  have h := (c10_error_if_decref_inputs (tk "IDENTIFIER" "ERROR_IF" 99)
    [tk "LPAREN" "(" 0, tk "IDENTIFIER" "x" 1, tk "COMMA" "," 2,
     tk "IDENTIFIER" "lbl" 3, tk "RPAREN" ")" 4, tk "SEMI" ";" 5]
    [] exUop exStorage
    { stack := { peekOffsetText := "2" },
      inputs := [{ name := "a", defined := false, in_memory := true },
                 { name := "b", defined := false, in_memory := true }],
      outputs := [slotOut "c"], spilled := false }
    none []
    [OutItem.str "if ", OutItem.tok (tk "LPAREN" "(" 0),
     OutItem.tok (tk "IDENTIFIER" "x" 1), OutItem.str ") \x7b\n",
     OutItem.str "<flush-stack>", OutItem.str "JUMP_TO_LABEL(lbl);",
     OutItem.str "\n", OutItem.str "\x7d\n"]
    true (by rfl)).2
    (tk "IDENTIFIER" "DECREF_INPUTS" 80) (tk "LPAREN" "(" 81)
    (tk "RPAREN" ")" 82) (tk "SEMI" ";" 83) [] exUop none [OutItem.str "<before>"]
  exact h.trans (by rfl)

theorem reconcileNoElse_eq (reachable : Bool) (rbrace : Token) (ifSt st : Storage)
    (rest : List Token) (out : Out) :
    reconcileNoElse reachable rbrace ifSt st rest out =
      (if reachable then
        (match Storage.merge ifSt st out with
         | .error msg => .error (analysis_error msg rbrace)
         | .ok (m, o) => .ok (true, rbrace, m, rest, print_storage m o))
      else .ok (true, rbrace, st, rest, out)) := by
  cases reachable <;> simp [reconcileNoElse, PRINT_STACKS]

theorem reconcileElse_eq (reachable : Bool) (ifSt : Storage) (elseReach : Bool)
    (rb2 : Token) (elseSt : Storage) (rest : List Token) (out : Out) :
    reconcileElse reachable ifSt elseReach rb2 elseSt rest out =
      (match reachable, elseReach with
       | false, _ => .ok (elseReach, rb2, elseSt, rest, out)
       | true, false => .ok (true, rb2, ifSt, rest, out)
       | true, true =>
          match Storage.merge elseSt ifSt out with
          | .error msg => .error (analysis_error msg rb2)
          | .ok (m, o) => .ok (true, rb2, m, rest, print_storage m o)) := by
  cases reachable <;> cases elseReach <;> simp [reconcileElse, PRINT_STACKS]

/-- C4: for an `if` with no `else`: when the then-branch finishes
unreachable its storage snapshot is discarded — the original pre-branch
storage is reused and the code after the conditional is reachable; when
the then-branch finishes reachable, its storage is merged into the
original pre-branch storage (a merge failure being reported at the then
branch's closing brace) and that merged snapshot is the state after the
conditional. -/
theorem c4_if_no_else (labels : Labels) (fuel : Nat) (uop : CodeSection)
    (inst : Option Instruction) (storage thenStore : Storage)
    (lparen rparen rbrace : Token) (condRest rest1 rest2 : List Token)
    (out out1 out2 : Out) (thenReach : Bool)
    (hlp : lparen.kind = "LPAREN")
    (hcond : emit_to (out ++ [OutItem.tok lparen]) condRest "RPAREN" 0 lparen =
      .ok (out1, rparen, rest1))
    (hthen : emitBlock labels fuel rest1 uop storage.copy inst true
        (out1 ++ [OutItem.tok rparen]) = .ok (thenReach, rbrace, thenStore, rest2, out2))
    (hnoelse : ∀ u, rest2.head? = some u → u.kind ≠ "ELSE") :
    emitIf labels (fuel + 1) (lparen :: condRest) uop storage inst out =
      (if thenReach then
        (match Storage.merge thenStore storage out2 with
         | .error msg => .error (analysis_error msg rbrace)
         | .ok (m, o) => .ok (true, rbrace, m, rest2, print_storage m o))
      else .ok (true, rbrace, storage, rest2, out2)) := by
  rw [← reconcileNoElse_eq thenReach rbrace thenStore storage rest2 out2]
  cases rest2 with
  | nil => simp [emitIf, hlp, hcond, hthen]
  | cons u rest3 =>
      have hu : u.kind ≠ "ELSE" := hnoelse u (by rfl)
      simp [emitIf, hlp, hcond, hthen, hu]

/-- C4 witness: `if (x) \x7b \x7d ;` over the fixture storage — the
then-branch is reachable, merging two identical snapshots succeeds, and
the state after the conditional is that merged snapshot. -/
theorem c4_if_no_else_witness :
    emitIf [] 100
      [tk "LPAREN" "(" 40, tk "IDENTIFIER" "x" 41, tk "RPAREN" ")" 42,
       tk "LBRACE" "\x7b" 43, tk "RBRACE" "\x7d" 44, tk "SEMI" ";" 48]
      exUop exStorage none [] =
    .ok (true, tk "RBRACE" "\x7d" 44, exStorage, [tk "SEMI" ";" 48],
         [OutItem.tok (tk "LPAREN" "(" 40), OutItem.tok (tk "IDENTIFIER" "x" 41),
          OutItem.tok (tk "RPAREN" ")" 42), OutItem.tok (tk "LBRACE" "\x7b" 43)]) := by
  have h := c4_if_no_else [] 99 exUop none exStorage exStorage
    (tk "LPAREN" "(" 40) (tk "RPAREN" ")" 42) (tk "RBRACE" "\x7d" 44)
    [tk "IDENTIFIER" "x" 41, tk "RPAREN" ")" 42, tk "LBRACE" "\x7b" 43,
     tk "RBRACE" "\x7d" 44, tk "SEMI" ";" 48]
    [tk "LBRACE" "\x7b" 43, tk "RBRACE" "\x7d" 44, tk "SEMI" ";" 48]
    [tk "SEMI" ";" 48]
    []
    [OutItem.tok (tk "LPAREN" "(" 40), OutItem.tok (tk "IDENTIFIER" "x" 41)]
    [OutItem.tok (tk "LPAREN" "(" 40), OutItem.tok (tk "IDENTIFIER" "x" 41),
     OutItem.tok (tk "RPAREN" ")" 42), OutItem.tok (tk "LBRACE" "\x7b" 43)]
    true
    (by rfl) (by rfl) (by rfl)
    (by intro u hu; cases hu; decide)
  exact h.trans (by rfl)

/-- C1: for an `if`/`else`: when both branch snapshots finish reachable,
the state after the conditional is the merge of the two snapshots — the
modelled merge reconciles each slot's `defined`/`in_memory` flags,
emitting compensating code, and a merge failure is reported at the else
branch's closing brace token; when exactly one branch finishes reachable,
that branch's storage becomes the result and the conditional is
reachable; when neither branch finishes reachable, the conditional as a
whole is unreachable. -/
theorem c1_if_else_reconciliation (labels : Labels) (fuel : Nat) (uop : CodeSection)
    (inst : Option Instruction) (storage thenStore elseStore : Storage)
    (lparen rparen rbrace1 elseTok t rbrace2 : Token)
    (condRest rest1 rest3 rest4 : List Token)
    (out out1 out2 out3 : Out) (thenReach elseReach : Bool)
    (hlp : lparen.kind = "LPAREN")
    (hcond : emit_to (out ++ [OutItem.tok lparen]) condRest "RPAREN" 0 lparen =
      .ok (out1, rparen, rest1))
    (hthen : emitBlock labels fuel rest1 uop storage.copy inst true
        (out1 ++ [OutItem.tok rparen]) =
      .ok (thenReach, rbrace1, thenStore, elseTok :: t :: rest3, out2))
    (helse : elseTok.kind = "ELSE")
    (helseres :
      (if t.kind = "IF" then
        (match emitIf labels fuel rest3 uop storage inst
            ((print_storage storage out2 ++ [OutItem.tok rbrace1, OutItem.tok elseTok])
              ++ [OutItem.str " \x7b\n", OutItem.tok t]) with
         | .error e => .error e
         | .ok (rr, rbb, s, rst, oo) => .ok (rr, rbb, s, rst, oo ++ [OutItem.str "\x7d\n"]))
      else
        emitBlock labels fuel (t :: rest3) uop storage inst true
          (print_storage storage out2 ++ [OutItem.tok rbrace1, OutItem.tok elseTok])) =
      .ok (elseReach, rbrace2, elseStore, rest4, out3)) :
    emitIf labels (fuel + 1) (lparen :: condRest) uop storage inst out =
      (if thenReach then
        (if elseReach then
          (match Storage.merge elseStore thenStore out3 with
           | .error msg => .error (analysis_error msg rbrace2)
           | .ok (m, o) => .ok (true, rbrace2, m, rest4, print_storage m o))
        else .ok (true, rbrace2, thenStore, rest4, out3))
      else .ok (elseReach, rbrace2, elseStore, rest4, out3)) := by
  have hre : reconcileElse thenReach thenStore elseReach rbrace2 elseStore rest4 out3 =
      (if thenReach then
        (if elseReach then
          (match Storage.merge elseStore thenStore out3 with
           | .error msg => .error (analysis_error msg rbrace2)
           | .ok (m, o) => .ok (true, rbrace2, m, rest4, print_storage m o))
        else .ok (true, rbrace2, thenStore, rest4, out3))
      else .ok (elseReach, rbrace2, elseStore, rest4, out3)) := by
    cases thenReach <;> cases elseReach <;> simp [reconcileElse, PRINT_STACKS]
  rw [← hre]
  by_cases hif : t.kind = "IF"
  · rw [if_pos hif] at helseres
    simp only [List.append_assoc, List.cons_append, List.nil_append] at helseres
    simp [emitIf, hlp, hcond, hthen, helse, hif, helseres]
  · rw [if_neg hif] at helseres
    simp [emitIf, hlp, hcond, hthen, helse, hif, helseres]

/-- C1 witness: `if (x) \x7b \x7d else \x7b \x7d` over the fixture storage
— both branches finish reachable, the two identical snapshots merge, and
the conditional is reachable with the merged snapshot. -/
theorem c1_if_else_witness :
    emitIf [] 100
      [tk "LPAREN" "(" 40, tk "IDENTIFIER" "x" 41, tk "RPAREN" ")" 42,
       tk "LBRACE" "\x7b" 43, tk "RBRACE" "\x7d" 44,
       tk "ELSE" "else" 45, tk "LBRACE" "\x7b" 46, tk "RBRACE" "\x7d" 47]
      exUop exStorage none [] =
    .ok (true, tk "RBRACE" "\x7d" 47, exStorage, [],
         [OutItem.tok (tk "LPAREN" "(" 40), OutItem.tok (tk "IDENTIFIER" "x" 41),
          OutItem.tok (tk "RPAREN" ")" 42), OutItem.tok (tk "LBRACE" "\x7b" 43),
          OutItem.tok (tk "RBRACE" "\x7d" 44), OutItem.tok (tk "ELSE" "else" 45),
          OutItem.tok (tk "LBRACE" "\x7b" 46)]) := by
  have h := c1_if_else_reconciliation [] 99 exUop none exStorage exStorage exStorage
    (tk "LPAREN" "(" 40) (tk "RPAREN" ")" 42) (tk "RBRACE" "\x7d" 44)
    (tk "ELSE" "else" 45) (tk "LBRACE" "\x7b" 46) (tk "RBRACE" "\x7d" 47)
    [tk "IDENTIFIER" "x" 41, tk "RPAREN" ")" 42, tk "LBRACE" "\x7b" 43,
     tk "RBRACE" "\x7d" 44, tk "ELSE" "else" 45, tk "LBRACE" "\x7b" 46,
     tk "RBRACE" "\x7d" 47]
    [tk "LBRACE" "\x7b" 43, tk "RBRACE" "\x7d" 44, tk "ELSE" "else" 45,
     tk "LBRACE" "\x7b" 46, tk "RBRACE" "\x7d" 47]
    [tk "RBRACE" "\x7d" 47]
    []
    []
    [OutItem.tok (tk "LPAREN" "(" 40), OutItem.tok (tk "IDENTIFIER" "x" 41)]
    [OutItem.tok (tk "LPAREN" "(" 40), OutItem.tok (tk "IDENTIFIER" "x" 41),
     OutItem.tok (tk "RPAREN" ")" 42), OutItem.tok (tk "LBRACE" "\x7b" 43)]
    [OutItem.tok (tk "LPAREN" "(" 40), OutItem.tok (tk "IDENTIFIER" "x" 41),
     OutItem.tok (tk "RPAREN" ")" 42), OutItem.tok (tk "LBRACE" "\x7b" 43),
     OutItem.tok (tk "RBRACE" "\x7d" 44), OutItem.tok (tk "ELSE" "else" 45),
     OutItem.tok (tk "LBRACE" "\x7b" 46)]
    true true
    (by rfl) (by rfl) (by rfl) (by rfl) (by rfl)
  exact h.trans (by rfl)

/-- One step of the block-emitter loop when the instruction has no
escaping calls and no reload is pending: the escaping-call handling is a
no-op and the loop dispatches on the token kind. -/
theorem blockLoop_cons_step (labels : Labels) (fuel : Nat) (tkn : Token)
    (rest1 : List Token) (uop : CodeSection) (storage : Storage)
    (inst : Option Instruction) (braces : Nat) (reachable : Bool) (last : Token)
    (out : Out) (hesc : uop.properties.escaping_calls = []) :
    blockLoop labels (fuel + 1) (tkn :: rest1) uop storage inst braces reachable
        none last out =
      (if tkn.kind = "LBRACE" then
        blockLoop labels fuel rest1 uop storage inst (braces + 1) reachable none tkn
          (out ++ [OutItem.tok tkn])
      else if tkn.kind = "RBRACE" then
        (if braces - 1 = 0 then
          .ok (reachable, tkn, storage, rest1, print_storage storage out)
        else
          blockLoop labels fuel rest1 uop storage inst (braces - 1) reachable none tkn
            (print_storage storage out ++ [OutItem.tok tkn]))
      else if tkn.kind = "GOTO" then
        (match rest1 with
         | [] => .error .stopIteration
         | label_tkn :: rest2 =>
            match goto_label labels tkn label_tkn storage out with
            | .error e => .error e
            | .ok (s, o) =>
                blockLoop labels fuel rest2 uop s inst braces false none tkn o)
      else if tkn.kind = "IDENTIFIER" then
        (if containsStr replacerNames tkn.text then
          (match callReplacer tkn.text tkn rest1 uop storage inst out with
           | .error e => .error e
           | .ok (rr, rest2, s, o) =>
              blockLoop labels fuel rest2 uop s inst braces (reachable && rr) none tkn o)
        else
          blockLoop labels fuel rest1 uop
            (if containsTok uop.output_stores tkn then
              { storage with outputs := setFirstOutput storage.outputs tkn.text }
            else storage)
            inst braces
            (if startsWithDispatch tkn.text then false else reachable) none tkn
            ((if startsWithDispatch tkn.text then
                print_storage
                  (if containsTok uop.output_stores tkn then
                    { storage with outputs := setFirstOutput storage.outputs tkn.text }
                  else storage) out
              else out) ++ [OutItem.tok tkn]))
      else if tkn.kind = "IF" then
        (match emitIf labels fuel rest1 uop storage inst (out ++ [OutItem.tok tkn]) with
         | .error e => .error e
         | .ok (ifr, rbr, s, rest2, o) =>
            blockLoop labels fuel rest2 uop s inst braces (reachable && ifr) none tkn
              (o ++ [OutItem.tok rbr]))
      else
        blockLoop labels fuel rest1 uop storage inst braces reachable none tkn
          (out ++ [OutItem.tok tkn])) := by
  obtain ⟨bdy, os, props, isz⟩ := uop
  obtain ⟨ec⟩ := props
  have hec : ec = [] := hesc
  subst hec
  rfl

theorem setFirstOutput_names (n : String) :
    ∀ l : List StackItem,
      (setFirstOutput l n).map (fun v => v.name) = l.map (fun v => v.name) := by
  intro l
  induction l with
  | nil => rfl
  | cons v rest ih =>
      by_cases hv : v.name = n
      · simp [setFirstOutput, hv]
      · simp [setFirstOutput, hv, ih]

/-- Running the block-emitter loop over tokens that are all merely echoed
(no directives, no goto/if, no DISPATCH identifiers) with no escaping
calls preserves the reachability flag, the input slots, and the output
slot names. -/
theorem blockLoop_plain (fuel : Nat) :
    ∀ (labels : Labels) (tkns : List Token) (uop : CodeSection) (storage : Storage)
      (inst : Option Instruction) (braces : Nat) (reachable : Bool) (last : Token)
      (out : Out) (r : Bool) (rb : Token) (st : Storage) (rest : List Token) (o : Out),
      uop.properties.escaping_calls = [] →
      (∀ t ∈ tkns, plainToken t = true) →
      blockLoop labels fuel tkns uop storage inst braces reachable none last out =
        .ok (r, rb, st, rest, o) →
      r = reachable ∧ st.inputs = storage.inputs ∧
        st.outputs.map (fun v => v.name) = storage.outputs.map (fun v => v.name) := by
  induction fuel with
  | zero =>
      intro labels tkns uop storage inst braces reachable last out r rb st rest o
        hesc hplain hrun
      simp [blockLoop] at hrun
  | succ fuel ih =>
      intro labels tkns uop storage inst braces reachable last out r rb st rest o
        hesc hplain hrun
      cases tkns with
      | nil => simp [blockLoop] at hrun
      | cons tkn rest1 =>
          have hp := hplain tkn (List.mem_cons_self tkn rest1)
          have hprest : ∀ t ∈ rest1, plainToken t = true :=
            fun t ht => hplain t (List.mem_cons_of_mem tkn ht)
          simp only [plainToken, Bool.and_eq_true, Bool.or_eq_true, Bool.not_eq_true',
            decide_eq_false_iff_not] at hp
          obtain ⟨⟨hg, hi⟩, hid⟩ := hp
          rw [blockLoop_cons_step labels fuel tkn rest1 uop storage inst braces
            reachable last out hesc] at hrun
          by_cases hlb : tkn.kind = "LBRACE"
          · rw [if_pos hlb] at hrun
            exact ih labels rest1 uop storage inst (braces + 1) reachable tkn
              (out ++ [OutItem.tok tkn]) r rb st rest o hesc hprest hrun
          · rw [if_neg hlb] at hrun
            by_cases hrb : tkn.kind = "RBRACE"
            · rw [if_pos hrb] at hrun
              by_cases hz : braces - 1 = 0
              · rw [if_pos hz] at hrun
                simp only [Except.ok.injEq, Prod.mk.injEq] at hrun
                obtain ⟨h1, _, h3, _, _⟩ := hrun
                exact ⟨h1.symm, by rw [← h3], by rw [← h3]⟩
              · rw [if_neg hz] at hrun
                exact ih labels rest1 uop storage inst (braces - 1) reachable tkn
                  (print_storage storage out ++ [OutItem.tok tkn]) r rb st rest o
                  hesc hprest hrun
            · rw [if_neg hrb, if_neg hg, if_neg hi] at hrun
              by_cases hident : tkn.kind = "IDENTIFIER"
              · rw [if_pos hident] at hrun
                have hcd := hid.resolve_left (by simpa using hident)
                obtain ⟨hcon, hdisp⟩ := hcd
                rw [hcon] at hrun
                simp only [Bool.false_eq_true, if_false] at hrun
                have hconcl := ih labels rest1 uop
                  (if containsTok uop.output_stores tkn then
                    { storage with outputs := setFirstOutput storage.outputs tkn.text }
                  else storage)
                  inst braces
                  (if startsWithDispatch tkn.text then false else reachable) tkn
                  ((if startsWithDispatch tkn.text then
                      print_storage
                        (if containsTok uop.output_stores tkn then
                          { storage with outputs := setFirstOutput storage.outputs tkn.text }
                        else storage) out
                    else out) ++ [OutItem.tok tkn]) r rb st rest o hesc hprest hrun
                rw [hdisp] at hconcl
                simp only [Bool.false_eq_true, if_false] at hconcl
                obtain ⟨h1, h2, h3⟩ := hconcl
                refine ⟨h1, ?_, ?_⟩
                · rw [h2]
                  by_cases hos : containsTok uop.output_stores tkn = true
                  · rw [if_pos hos]
                  · rw [if_neg hos]
                · rw [h3]
                  by_cases hos : containsTok uop.output_stores tkn = true
                  · rw [if_pos hos]
                    exact setFirstOutput_names tkn.text storage.outputs
                  · rw [if_neg hos]
              · rw [if_neg hident] at hrun
                exact ih labels rest1 uop storage inst braces reachable tkn
                  (out ++ [OutItem.tok tkn]) r rb st rest o hesc hprest hrun

/-- C2: when the outer block of an instruction body finishes reachable,
`emit_tokens` promotes all output slots into the live input-slot set (the
result's inputs are exactly the block's output slots); for a body whose
tokens are all merely echoed (no directives, no goto/if, no DISPATCH
identifiers, no escaping calls) the block finishes reachable and the
live-slot names after the body equal the metadata-declared output names
exactly; when the outer block finishes unreachable no promotion is
performed — in particular for the scenario body
`\x7b DEOPT_IF(true); c = 1; \x7d` the deopt block is emitted, the
assignment is treated as unreachable, and `c` is never promoted (the
result's live inputs are the original ones). -/
theorem c2_emit_tokens_promotion (labels : Labels) (fuel : Nat)
    (code : CodeSection) (storage st : Storage) (inst : Option Instruction)
    (r : Bool) (rb : Token) (rest : List Token) (o : Out)
    (hrun : emitBlock labels fuel code.body code storage inst false [] =
      .ok (r, rb, st, rest, o)) :
    (r = true →
      emit_tokens labels fuel code storage inst = .ok (st.push_outputs, o) ∧
      (st.push_outputs).inputs = st.outputs)
    ∧ (r = false → emit_tokens labels fuel code storage inst = .ok (st, o))
    ∧ (code.properties.escaping_calls = [] →
       (∀ t ∈ code.body, plainToken t = true) →
       r = true ∧
       (st.push_outputs).inputs.map (fun v => v.name) =
         storage.outputs.map (fun v => v.name))
    ∧ (emit_tokens [] 100 deoptUop exStorage (some { family := some "FAM" }) =
        .ok ({ stack := { peekOffsetText := "2" },
               inputs := [slotLive "a", slotLive "b"],
               outputs := [{ name := "c", defined := true, in_memory := false }],
               spilled := false },
             deoptOut)) := by
  refine ⟨?_, ?_, ?_, by rfl⟩
  · intro hr
    subst hr
    constructor
    · simp [emit_tokens, hrun, print_storage, PRINT_STACKS]
    · rfl
  · intro hr
    subst hr
    simp [emit_tokens, hrun]
  · intro hesc hplain
    have hblock : ∃ lb : Token, ∃ rest1 : List Token,
        code.body = lb :: rest1 ∧ lb.kind = "LBRACE" ∧
        blockLoop labels (fuel - 1) rest1 code storage inst 1 true none lb
          (print_storage storage []) = .ok (r, rb, st, rest, o) := by
      cases hfuel : fuel with
      | zero => rw [hfuel] at hrun; simp [emitBlock] at hrun
      | succ fuel2 =>
        rw [hfuel] at hrun
        cases hbody : code.body with
        | nil => rw [hbody] at hrun; simp [emitBlock] at hrun
        | cons lb rest1 =>
          rw [hbody] at hrun
          by_cases hlb : lb.kind = "LBRACE"
          · refine ⟨lb, rest1, rfl, hlb, ?_⟩
            simpa [emitBlock, hlb] using hrun
          · simp [emitBlock, hlb] at hrun
    obtain ⟨lb, rest1, hbody, hlb, hloop⟩ := hblock
    have hp1 : ∀ t ∈ rest1, plainToken t = true := by
      intro t ht
      exact hplain t (by rw [hbody]; exact List.mem_cons_of_mem lb ht)
    have hres := blockLoop_plain (fuel - 1) labels rest1 code storage inst 1 true lb
      (print_storage storage []) r rb st rest o hesc hp1 hloop
    obtain ⟨h1, _, h3⟩ := hres
    exact ⟨h1, by simpa [Storage.push_outputs] using h3⟩

/-- C2 witness: the plain body `\x7b c = 1; \x7d` over the fixture storage
— the block is reachable and `emit_tokens` promotes the single output `c`
into the live input set. -/
theorem c2_emit_tokens_witness :
    emit_tokens [] 100 plainUop exStorage none =
      .ok ({ stack := { peekOffsetText := "2" },
             inputs := [{ name := "c", defined := true, in_memory := false }],
             outputs := [], spilled := false },
           [OutItem.tok cStoreTok, OutItem.tok (tk "EQUALS" "=" 11),
            OutItem.tok (tk "NUMBER" "1" 12), OutItem.tok (tk "SEMI" ";" 13)]) := by
  have h := (c2_emit_tokens_promotion [] 100 plainUop exStorage
    { stack := { peekOffsetText := "2" },
      inputs := [slotLive "a", slotLive "b"],
      outputs := [{ name := "c", defined := true, in_memory := false }],
      spilled := false }
    none true (tk "RBRACE" "\x7d" 14) []
    [OutItem.tok cStoreTok, OutItem.tok (tk "EQUALS" "=" 11),
     OutItem.tok (tk "NUMBER" "1" 12), OutItem.tok (tk "SEMI" ";" 13)]
    (by rfl)).1 (by rfl)
  exact h.1.trans (by rfl)

end CasesGen
